import Mathlib

/-!
# lvr_ros: the reconstruction node

A shallow embedding of `src/src/reconstruction.cpp`: the action callback
`Reconstruction::reconstruct`, the topic callback
`Reconstruction::pointCloudCallback` and the two overloads of
`Reconstruction::createMesh`.

The node drives the lvr2 library and the ROS client library.  Neither is part
of the sources, so every library type is a field of `LvrTypes` and every
library function a field of `Lvr`; the theorems hold for all of them.

* C++ objects are values: a call that updates an object returns the new
  value, and a call that only reads an object leaves it as it is.
* A library call either returns or throws (`Except Thrown`); a thrown object
  is a `std::exception` or not, which is what a handler can tell.
* A call of the node ends in one of three ways (`Outcome`): it returns, an
  exception leaves it, or it dereferences a null pointer.
* What a call of the node does to the outside (log lines, library calls,
  action results, published messages) is listed in order in `Result.events`.
* The one static variable the node assigns,
  `lvr2::BilinearFastBox<Vec>::m_surface`, is `World.m_surface`.
* Where a property of the node rests on what a library function does, the
  contract the specification gives that function is a hypothesis
  (`MeshFinalizerContract`, `ClusterizerContract`).
-/

namespace lvr_ros

/-! ## Data model -/

/-- The types the node takes from lvr2 and from the ROS message packages. -/
structure LvrTypes where
  /-- The C++ type `float`. -/
  Float32 : Type
  /-- The C++ type `double`. -/
  Float64 : Type
  /-- The payload of a `sensor_msgs::PointCloud2` (everything but its header). -/
  CloudData : Type
  /-- The message type `mesh_msgs::TriangleMesh`. -/
  TriangleMesh : Type
  /-- The type `lvr2::PointBuffer<Vec>`. -/
  PointBuffer : Type
  /-- The type `lvr::MeshBuffer`. -/
  MeshBuffer : Type
  /-- The type `lvr2::PointsetSurface<Vec>`. -/
  Surface : Type
  /-- The type `lvr2::BoundingBox<Vec>`. -/
  BoundingBox : Type
  /-- The type `lvr2::PointsetGrid<Vec, lvr2::BilinearFastBox<Vec>>`. -/
  Grid : Type
  /-- The type `lvr2::FastReconstructionBase<Vec>`. -/
  FastReconstruction : Type
  /-- The type `lvr2::HalfEdgeMesh<Vec>`. -/
  HalfEdgeMesh : Type
  /-- The result type of `calcFaceNormals`. -/
  FaceNormals : Type
  /-- The type `lvr2::ClusterBiMap<lvr2::FaceHandle>`. -/
  ClusterSet : Type
  /-- The result type of `calcVertexNormals`. -/
  VertexNormals : Type

/-- A thrown C++ object: one whose type derives from `std::exception`, or a
string literal (`const char*`), which does not. -/
inductive Thrown where
  | stdException (what : String)
  | cString (message : String)
  deriving DecidableEq, Repr

/-- The message header `std_msgs::Header`, as far as the node uses it. -/
structure Header where
  frame_id : String
  stamp : Nat
  deriving DecidableEq, Repr

/-- The message `sensor_msgs::PointCloud2`. -/
structure PointCloud2 (T : LvrTypes) where
  header : Header
  data : T.CloudData

/-- The message `mesh_msgs::TriangleMeshStamped`. -/
structure TriangleMeshStamped (T : LvrTypes) where
  header : Header
  mesh : T.TriangleMesh

/-- The action goal `lvr_ros::ReconstructGoal`. -/
structure ReconstructGoal (T : LvrTypes) where
  cloud : PointCloud2 T

/-- The action result `lvr_ros::ReconstructResult`. -/
structure ReconstructResult (T : LvrTypes) where
  mesh : TriangleMeshStamped T

/-- The dynamic-reconfigure record `lvr_ros::ReconstructionConfig`.  Its
generated header is not among the sources; these are the fields that
`createMesh` reads, with the types it uses them at. -/
structure ReconstructionConfig (T : LvrTypes) where
  pcm : String
  kn : Int
  ki : Int
  kd : Int
  ransac : Bool
  recalcNormals : Bool
  intersections : Int
  voxelsize : T.Float64
  decomposition : String
  noExtrusion : Bool
  optimizePlanes : Bool
  normalThreshold : T.Float64
  planeIterations : Int
  minPlaneSize : Int

/-- The library functions the node calls.  Constructors are the `new...`
fields; `newPointBuffer`, `newMeshBuffer`, `newTriangleMesh` and
`newHalfEdgeMesh` are the default-constructed objects.  The node calls neither
`numFaces` nor `bufferNumFaces`; they are there to speak of empty meshes. -/
structure Lvr (T : LvrTypes) where
  /-- The conversion of an `int` to `float`. -/
  floatOfInt : Int → T.Float32
  /-- The conversion of a `double` to `float`. -/
  floatOfDouble : T.Float64 → T.Float32
  newPointBuffer : T.PointBuffer
  newMeshBuffer : T.MeshBuffer
  newTriangleMesh : T.TriangleMesh
  newHalfEdgeMesh : T.HalfEdgeMesh
  /-- The function `lvr_ros::fromPointCloud2ToPointBuffer(cloud, buffer)`: the
  returned flag and the buffer as it leaves it. -/
  fromPointCloud2ToPointBuffer :
    PointCloud2 T → T.PointBuffer → Except Thrown (Bool × T.PointBuffer)
  /-- The function `lvr_ros::fromMeshBufferToTriangleMesh(buffer, message)`: the
  returned flag and the message as it leaves it. -/
  fromMeshBufferToTriangleMesh :
    T.MeshBuffer → T.TriangleMesh → Except Thrown (Bool × T.TriangleMesh)
  hasNormals : T.PointBuffer → Bool
  /-- The constructor `AdaptiveKSearchSurface(buffer, name, kn, ki, kd, ransac)`. -/
  newAdaptiveKSearchSurface :
    T.PointBuffer → String → Int → Int → Int → Bool → Except Thrown T.Surface
  setKd : T.Surface → Int → T.Surface
  setKi : T.Surface → Int → T.Surface
  setKn : T.Surface → Int → T.Surface
  calculateSurfaceNormals : T.Surface → Except Thrown T.Surface
  getBoundingBox : T.Surface → T.BoundingBox
  /-- The constructor
  `PointsetGrid(resolution, surface, boundingBox, useVoxelsize, extrude)`. -/
  newPointsetGrid :
    T.Float32 → T.Surface → T.BoundingBox → Bool → Bool → Except Thrown T.Grid
  calcDistanceValues : T.Grid → Except Thrown T.Grid
  /-- The constructor `FastReconstruction(grid)`. -/
  newFastReconstruction : T.Grid → Except Thrown T.FastReconstruction
  /-- The call `reconstruction->getMesh(mesh)`: the mesh as it leaves it. -/
  getMesh : T.FastReconstruction → T.HalfEdgeMesh → Except Thrown T.HalfEdgeMesh
  /-- The number of faces of a half-edge mesh. -/
  numFaces : T.HalfEdgeMesh → Nat
  calcFaceNormals : T.HalfEdgeMesh → Except Thrown T.FaceNormals
  /-- The call `iterativePlanarClusterGrowing(mesh, normals, normalThreshold,
  iterations, minClusterSize)`: the cluster set, and the mesh and the normals
  (both passed by reference) as it leaves them. -/
  iterativePlanarClusterGrowing :
    T.HalfEdgeMesh → T.FaceNormals → T.Float64 → Int → Int →
      Except Thrown (T.ClusterSet × T.HalfEdgeMesh × T.FaceNormals)
  planarClusterGrowing :
    T.HalfEdgeMesh → T.FaceNormals → T.Float64 → Except Thrown T.ClusterSet
  calcVertexNormals :
    T.HalfEdgeMesh → T.FaceNormals → T.Surface → Except Thrown T.VertexNormals
  /-- The calls `finalize.setNormalData(vertexNormals)` and
  `finalize.apply(mesh)` on a fresh `FinalizeAlgorithm`. -/
  finalizeApply : T.VertexNormals → T.HalfEdgeMesh → Except Thrown T.MeshBuffer
  /-- The number of faces of a mesh buffer. -/
  bufferNumFaces : T.MeshBuffer → Nat

/-- What the node does to the outside, one constructor per kind of action. -/
inductive Event (T : LvrTypes) where
  | rosError (text : String)
  | rosInfo (text : String)
  | fromPointCloud2ToPointBuffer (cloud : PointCloud2 T)
  | fromMeshBufferToTriangleMesh (buffer : T.MeshBuffer) (message : T.TriangleMesh)
  | newAdaptiveKSearchSurface (buffer : T.PointBuffer) (name : String)
      (kn ki kd : Int) (ransac : Bool)
  | setKd (k : Int)
  | setKi (k : Int)
  | setKn (k : Int)
  | calculateSurfaceNormals (surface : T.Surface)
  | newPointsetGrid (resolution : T.Float32) (surface : T.Surface)
      (boundingBox : T.BoundingBox) (useVoxelsize extrude : Bool)
  | calcDistanceValues (grid : T.Grid)
  | newFastReconstruction (grid : T.Grid)
  | getMesh (reconstruction : T.FastReconstruction) (mesh : T.HalfEdgeMesh)
  | calcFaceNormals (mesh : T.HalfEdgeMesh)
  | iterativePlanarClusterGrowing (mesh : T.HalfEdgeMesh) (normals : T.FaceNormals)
      (normalThreshold : T.Float64) (planeIterations minPlaneSize : Int)
  | planarClusterGrowing (mesh : T.HalfEdgeMesh) (normals : T.FaceNormals)
      (normalThreshold : T.Float64)
  | calcVertexNormals (mesh : T.HalfEdgeMesh) (normals : T.FaceNormals) (surface : T.Surface)
  | finalizeApply (vertexNormals : T.VertexNormals) (mesh : T.HalfEdgeMesh)
  | setSucceeded (result : ReconstructResult T) (text : String)
  | setAborted
  | publish (mesh : TriangleMeshStamped T)

/-- The process-wide mutable state: the static member
`lvr2::BilinearFastBox<Vec>::m_surface` (a shared pointer, null until
assigned). -/
structure World (T : LvrTypes) where
  m_surface : Option T.Surface

/-- How a C++ call ends: it returns, an exception leaves it, or it
dereferences a null pointer. -/
inductive Outcome (α : Type) where
  | returned (a : α)
  | threw (t : Thrown)
  | nullDereference

/-- A finished call: how it ended, what it did to the outside (oldest first)
and the process-wide state it left. -/
structure Result (T : LvrTypes) (α : Type) where
  outcome : Outcome α
  events : List (Event T)
  world : World T

/-- The events `l`, then the finished call `r`. -/
def Result.after {T : LvrTypes} {α : Type} (l : List (Event T)) (r : Result T α) :
    Result T α :=
  { r with events := l ++ r.events }

/-- A computation of the node, run from a given process-wide state. -/
def Run (T : LvrTypes) (α : Type) : Type := World T → Result T α

namespace Run

variable {T : LvrTypes} {α β : Type}

/-- Return `a`: nothing happens outside. -/
def ret (a : α) : Run T α := fun w =>
  { outcome := Outcome.returned a, events := [], world := w }

/-- Run `x`; if it returns, continue with `f`; otherwise end the way `x` did. -/
def andThen (x : Run T α) (f : α → Run T β) : Run T β := fun w =>
  match x w with
  | { outcome := Outcome.returned a, events := l, world := w1 } => (f a w1).after l
  | { outcome := Outcome.threw t, events := l, world := w1 } =>
      { outcome := Outcome.threw t, events := l, world := w1 }
  | { outcome := Outcome.nullDereference, events := l, world := w1 } =>
      { outcome := Outcome.nullDereference, events := l, world := w1 }

instance : Monad (Run T) where
  pure := ret
  bind := andThen

/-- The statement `throw t`. -/
def throwValue (t : Thrown) : Run T α := fun w =>
  { outcome := Outcome.threw t, events := [], world := w }

/-- An action on the outside that cannot fail. -/
def emit (e : Event T) : Run T Unit := fun w =>
  { outcome := Outcome.returned (), events := [e], world := w }

/-- A library call: it happens, then it returns or throws. -/
def call (e : Event T) (r : Except Thrown α) : Run T α := fun w =>
  match r with
  | Except.ok a => { outcome := Outcome.returned a, events := [e], world := w }
  | Except.error t => { outcome := Outcome.threw t, events := [e], world := w }

/-- The dereference `p->`: the object behind a pointer, if it is not null. -/
def deref (p : Option α) : Run T α := fun w =>
  match p with
  | some a => { outcome := Outcome.returned a, events := [], world := w }
  | none => { outcome := Outcome.nullDereference, events := [], world := w }

/-- The assignment `lvr2::BilinearFastBox<Vec>::m_surface = surface`. -/
def setStaticSurface (surface : Option T.Surface) : Run T Unit := fun w =>
  { outcome := Outcome.returned (), events := [], world := { w with m_surface := surface } }

/-- The block `try { body } catch (std::exception& e) { handler e.what() }`:
only a thrown object that derives from `std::exception` enters the handler. -/
def tryCatchStd (body : Run T α) (handler : String → Run T α) : Run T α := fun w =>
  match body w with
  | { outcome := Outcome.threw (Thrown.stdException what), events := l, world := w1 } =>
      (handler what w1).after l
  | r => r

end Run

open Run

variable {T : LvrTypes}

/-! ## The node -/

/-- The node object `lvr_ros::Reconstruction`: of its members only `config` is
data; the others are handles of the ROS client library. -/
structure Reconstruction (T : LvrTypes) where
  config : ReconstructionConfig T

namespace Reconstruction

/-- The method `Reconstruction::reconfigureCallback` (lines 115-118). -/
def reconfigureCallback (self : Reconstruction T) (config : ReconstructionConfig T)
    (_level : Nat) : Reconstruction T :=
  { self with config := config }

/-- The overload `Reconstruction::createMesh(PointBufferPtr&, lvr::MeshBufferPtr&)`
(lines 149-453), the reconstruction proper.  Returns the C++ return value and
`mesh_buffer` as the call leaves it; when the call does not return,
`mesh_buffer` is as it was, its one assignment being the last statement that
can throw.  The pointer `surface` is assigned a fresh object in the one branch
of lines 157-185 that goes on, so it is a plain value from there on;
`reconstruction` stays a pointer that may be null. -/
def createMesh (self : Reconstruction T) (lvr : Lvr T)
    (point_buffer : T.PointBuffer) (mesh_buffer : T.MeshBuffer) :
    Run T (Bool × T.MeshBuffer) := do
  let config := self.config
  -- Create a point cloud manager
  let pcm_name := config.pcm
  -- Create point set surface object
  if pcm_name = "PCL" then
    throwValue (Thrown.cString "PCL not supported right meow!")
  else if pcm_name = "STANN" ∨ pcm_name = "FLANN" ∨ pcm_name = "NABO"
      ∨ pcm_name = "NANOFLANN" then
    let surface ← call
      (Event.newAdaptiveKSearchSurface point_buffer pcm_name config.kn config.ki
        config.kd config.ransac)
      (lvr.newAdaptiveKSearchSurface point_buffer pcm_name config.kn config.ki
        config.kd config.ransac)
    -- Set search config for normal estimation and distance evaluation
    emit (Event.setKd config.kd)
    let surface := lvr.setKd surface config.kd
    emit (Event.setKi config.ki)
    let surface := lvr.setKi surface config.ki
    emit (Event.setKn config.kn)
    let surface := lvr.setKn surface config.kn
    -- Calculate normals if necessary
    let surface ←
      (if !lvr.hasNormals point_buffer || config.recalcNormals then
        call (Event.calculateSurfaceNormals surface) (lvr.calculateSurfaceNormals surface)
      else do
        emit (Event.rosInfo "Using given normals.")
        pure surface)
    -- Create an empty mesh
    let mesh := lvr.newHalfEdgeMesh
    -- Determine whether to use intersections or voxelsize
    let resolution : T.Float32 :=
      if config.intersections > 0 then lvr.floatOfInt config.intersections
      else lvr.floatOfDouble config.voxelsize
    let useVoxelsize : Bool :=
      if config.intersections > 0 then false else true
    -- Create a point set grid for reconstruction
    let decomposition := config.decomposition
    -- Fail safe check
    let decomposition ←
      (if decomposition ≠ "MC" ∧ decomposition ≠ "PMC" ∧ decomposition ≠ "SF" then do
        emit (Event.rosError
          ("Unsupported decomposition type " ++ decomposition ++ ". Defaulting to PMC."))
        pure "PMC"
      else
        pure decomposition)
    let reconstruction : Option T.FastReconstruction ←
      (if decomposition = "MC" then
        pure none
      else if decomposition = "PMC" then do
        setStaticSurface (some surface)
        let ps_grid ← call
          (Event.newPointsetGrid resolution surface (lvr.getBoundingBox surface)
            useVoxelsize (!config.noExtrusion))
          (lvr.newPointsetGrid resolution surface (lvr.getBoundingBox surface)
            useVoxelsize (!config.noExtrusion))
        let ps_grid ← call (Event.calcDistanceValues ps_grid) (lvr.calcDistanceValues ps_grid)
        let made ← call (Event.newFastReconstruction ps_grid)
          (lvr.newFastReconstruction ps_grid)
        pure (some made)
      else if decomposition = "SF" then
        pure none
      else
        pure none)
    -- Create mesh
    let extractor ← deref reconstruction
    let mesh ← call (Event.getMesh extractor mesh) (lvr.getMesh extractor mesh)
    let faceNormals ← call (Event.calcFaceNormals mesh) (lvr.calcFaceNormals mesh)
    let grown : T.HalfEdgeMesh × T.FaceNormals ←
      (if config.optimizePlanes then do
        let clusterSet ← call
          (Event.iterativePlanarClusterGrowing mesh faceNormals config.normalThreshold
            config.planeIterations config.minPlaneSize)
          (lvr.iterativePlanarClusterGrowing mesh faceNormals config.normalThreshold
            config.planeIterations config.minPlaneSize)
        pure (clusterSet.2.1, clusterSet.2.2)
      else do
        let _ ← call
          (Event.planarClusterGrowing mesh faceNormals config.normalThreshold)
          (lvr.planarClusterGrowing mesh faceNormals config.normalThreshold)
        pure (mesh, faceNormals))
    let mesh := grown.1
    let faceNormals := grown.2
    -- Calc normals for vertices
    let vertexNormals ← call (Event.calcVertexNormals mesh faceNormals surface)
      (lvr.calcVertexNormals mesh faceNormals surface)
    let mesh_buffer ← call (Event.finalizeApply vertexNormals mesh)
      (lvr.finalizeApply vertexNormals mesh)
    emit (Event.rosInfo "Reconstruction finished!")
    return (true, mesh_buffer)
  else
    emit (Event.rosError "Unable to create PointCloudManager.")
    emit (Event.rosError ("Unknown option '" ++ pcm_name ++ "'."))
    emit (Event.rosError "Available PCMs are: ")
    emit (Event.rosError "STANN, STANN_RANSAC, PCL")
    return (false, mesh_buffer)

/-- The overload `Reconstruction::createMesh(const sensor_msgs::PointCloud2&,
mesh_msgs::TriangleMeshStamped&)` (lines 120-147).  Returns the C++ return
value and `mesh_msg` as the call leaves it. -/
def createMeshMsg (self : Reconstruction T) (lvr : Lvr T)
    (cloud : PointCloud2 T) (mesh_msg : TriangleMeshStamped T) :
    Run T (Bool × TriangleMeshStamped T) := do
  let point_buffer_ptr := lvr.newPointBuffer
  let mesh_buffer_ptr := lvr.newMeshBuffer
  let converted ← call (Event.fromPointCloud2ToPointBuffer cloud)
    (lvr.fromPointCloud2ToPointBuffer cloud point_buffer_ptr)
  let point_buffer_ptr := converted.2
  if !converted.1 then
    emit (Event.rosError ("Could not convert point cloud from " ++
      "\"sensor_msgs::PointCloud2\" to \"lvr::PointBuffer\"!"))
    return (false, mesh_msg)
  else
    let reconstructed ← createMesh self lvr point_buffer_ptr mesh_buffer_ptr
    let mesh_buffer_ptr := reconstructed.2
    if !reconstructed.1 then
      emit (Event.rosError "Reconstruction failed!")
      return (false, mesh_msg)
    else
      let converted ← call (Event.fromMeshBufferToTriangleMesh mesh_buffer_ptr mesh_msg.mesh)
        (lvr.fromMeshBufferToTriangleMesh mesh_buffer_ptr mesh_msg.mesh)
      let mesh_msg := { mesh_msg with mesh := converted.2 }
      if !converted.1 then
        emit (Event.rosError ("Could not convert point cloud from " ++
          "\"lvr::MeshBuffer\" to \"mesh_msgs::TriangleMeshStamped\"!"))
        return (false, mesh_msg)
      else
        -- setting header frame and stamp
        let mesh_msg :=
          { mesh_msg with header := { mesh_msg.header with frame_id := cloud.header.frame_id } }
        let mesh_msg :=
          { mesh_msg with header := { mesh_msg.header with stamp := cloud.header.stamp } }
        return (true, mesh_msg)

/-- A default-constructed `mesh_msgs::TriangleMeshStamped`. -/
def newTriangleMeshStamped (lvr : Lvr T) : TriangleMeshStamped T :=
  { header := { frame_id := "", stamp := 0 }, mesh := lvr.newTriangleMesh }

/-- The action callback `Reconstruction::reconstruct` (lines 93-106). -/
def reconstruct (self : Reconstruction T) (lvr : Lvr T) (goal : ReconstructGoal T) :
    Run T Unit :=
  tryCatchStd
    (do
      let result : ReconstructResult T := { mesh := newTriangleMeshStamped lvr }
      let created ← createMeshMsg self lvr goal.cloud result.mesh
      let result := { result with mesh := created.2 }
      emit (Event.setSucceeded result "Published mesh."))
    (fun what => do
      emit (Event.rosError ("Error: " ++ what))
      emit Event.setAborted)

/-- The topic callback `Reconstruction::pointCloudCallback` (lines 108-113). -/
def pointCloudCallback (self : Reconstruction T) (lvr : Lvr T) (cloud : PointCloud2 T) :
    Run T Unit := do
  let mesh := newTriangleMeshStamped lvr
  let created ← createMeshMsg self lvr cloud mesh
  let mesh := created.2
  emit (Event.publish mesh)

end Reconstruction

/-! ## Predicates on finished calls -/

/-- The finished call `r` satisfies `Q`. -/
def Sat {α : Type} (Q : Result T α → Prop) (r : Result T α) : Prop := Q r

/-- Every action of the finished call satisfies `P`. -/
def Result.AllEvents {α : Type} (P : Event T → Prop) (r : Result T α) : Prop :=
  ∀ e ∈ r.events, P e

/-- A construction of the grid with the resolution pair that lines 281-293
choose from `config`. -/
def GridResolutionOk (config : ReconstructionConfig T) (lvr : Lvr T) : Event T → Prop
  | Event.newPointsetGrid resolution _ _ useVoxelsize _ =>
      (config.intersections > 0 →
        resolution = lvr.floatOfInt config.intersections ∧ useVoxelsize = false) ∧
      (¬ config.intersections > 0 →
        resolution = lvr.floatOfDouble config.voxelsize ∧ useVoxelsize = true)
  | _ => True

/-- A construction of the grid over the bounding box of its surface, extruded
unless `config.noExtrusion`. -/
def GridExtrusionOk (config : ReconstructionConfig T) (lvr : Lvr T) : Event T → Prop
  | Event.newPointsetGrid _ surface boundingBox _ extrude =>
      boundingBox = lvr.getBoundingBox surface ∧ extrude = !config.noExtrusion
  | _ => True

/-- The actions `createMesh` can take under `config`, each with the arguments
and under the condition the source gives it. -/
def CreateMeshEvent (config : ReconstructionConfig T) (lvr : Lvr T)
    (point_buffer : T.PointBuffer) : Event T → Prop
  | Event.rosError text =>
      text = "Unable to create PointCloudManager." ∨
      text = "Unknown option '" ++ config.pcm ++ "'." ∨
      text = "Available PCMs are: " ∨
      text = "STANN, STANN_RANSAC, PCL" ∨
      text = "Unsupported decomposition type " ++ config.decomposition ++ ". Defaulting to PMC."
  | Event.rosInfo text =>
      (text = "Using given normals." ∧
        ¬ (lvr.hasNormals point_buffer = false ∨ config.recalcNormals = true)) ∨
      text = "Reconstruction finished!"
  | Event.newAdaptiveKSearchSurface buffer name kn ki kd ransac =>
      buffer = point_buffer ∧ name = config.pcm ∧ kn = config.kn ∧ ki = config.ki ∧
        kd = config.kd ∧ ransac = config.ransac
  | Event.setKd k => k = config.kd
  | Event.setKi k => k = config.ki
  | Event.setKn k => k = config.kn
  | Event.calculateSurfaceNormals _ =>
      lvr.hasNormals point_buffer = false ∨ config.recalcNormals = true
  | Event.newPointsetGrid resolution surface boundingBox useVoxelsize extrude =>
      GridResolutionOk config lvr
        (Event.newPointsetGrid resolution surface boundingBox useVoxelsize extrude) ∧
      GridExtrusionOk config lvr
        (Event.newPointsetGrid resolution surface boundingBox useVoxelsize extrude)
  | Event.calcDistanceValues _ => True
  | Event.newFastReconstruction _ => True
  | Event.getMesh _ mesh => mesh = lvr.newHalfEdgeMesh
  | Event.calcFaceNormals _ => True
  | Event.iterativePlanarClusterGrowing _ _ normalThreshold planeIterations minPlaneSize =>
      config.optimizePlanes = true ∧ normalThreshold = config.normalThreshold ∧
        planeIterations = config.planeIterations ∧ minPlaneSize = config.minPlaneSize
  | Event.planarClusterGrowing _ _ normalThreshold =>
      config.optimizePlanes = false ∧ normalThreshold = config.normalThreshold
  | Event.calcVertexNormals _ _ _ => True
  | Event.finalizeApply _ _ => True
  | Event.fromPointCloud2ToPointBuffer _ => False
  | Event.fromMeshBufferToTriangleMesh _ _ => False
  | Event.setSucceeded _ _ => False
  | Event.setAborted => False
  | Event.publish _ => False

/-- A call of one of the two cluster-growing variants. -/
def Event.isClusterGrowing : Event T → Bool
  | Event.iterativePlanarClusterGrowing _ _ _ _ _ => true
  | Event.planarClusterGrowing _ _ _ => true
  | _ => false

/-- A construction of the grid. -/
def Event.isNewPointsetGrid : Event T → Bool
  | Event.newPointsetGrid _ _ _ _ _ => true
  | _ => false

/-- The finished call `r1` ended as `r2` did and took the same actions, with
the one action `e` more at some place; or with no action more, and then
neither call built the grid. -/
def Result.SameButFor {α : Type} (e : Event T) (r1 r2 : Result T α) : Prop :=
  r1.outcome = r2.outcome ∧ r1.world = r2.world ∧
    ((r1.events = r2.events ∧ ∀ x ∈ r2.events, x.isNewPointsetGrid = false) ∨
      ∃ before later, r2.events = before ++ later ∧ r1.events = before ++ e :: later)

/-- The static after the finished call, for a call started in the world `w`:
it points to the surface of the grid if the call built the grid, and the
process-wide state is as it was if the call did not. -/
def Result.StaticKept {α : Type} (w : World T) (r : Result T α) : Prop :=
  (∀ resolution surface boundingBox useVoxelsize extrude,
    Event.newPointsetGrid resolution surface boundingBox useVoxelsize extrude ∈ r.events →
      r.world = { m_surface := some surface }) ∧
  ((∀ e ∈ r.events, e.isNewPointsetGrid = false) → r.world = w)

/-- The static points to `surface0`, and the finished call built no grid on
another surface. -/
def Result.StaticSet {α : Type} (surface0 : T.Surface) (r : Result T α) : Prop :=
  r.world = { m_surface := some surface0 } ∧
  ∀ resolution surface boundingBox useVoxelsize extrude,
    Event.newPointsetGrid resolution surface boundingBox useVoxelsize extrude ∈ r.events →
      surface = surface0

/-! ## Contracts of the library -/

/-- Modelled from the spec: the contract of the mesh finalizer (section 4.5),
whose code, `lvr2::FinalizeAlgorithm`, is not among the sources.  "Assembles
the flat buffer: ... one index triple per face", and "Fails with
`EmptyMeshError` if MeshTopology has zero faces".  The library `lvr` meets the
contract, `emptyMeshError` being the object it throws. -/
def MeshFinalizerContract (lvr : Lvr T) (emptyMeshError : Thrown) : Prop :=
  ∀ vertexNormals mesh,
    (lvr.numFaces mesh = 0 →
      lvr.finalizeApply vertexNormals mesh = Except.error emptyMeshError) ∧
    (∀ buffer, lvr.finalizeApply vertexNormals mesh = Except.ok buffer →
      lvr.bufferNumFaces buffer = lvr.numFaces mesh)

/-- Modelled from the spec: the contract of the iterative clusterizer (section
4.4), whose code, `lvr2::iterativePlanarClusterGrowing`, is not among the
sources.  "`growClustersIterative(mesh, faceNormals, normalThreshold,
maxIterations, minClusterSize)`" regroups the faces of the mesh into clusters
and has the cluster map as its one result; so the mesh, which the C++ function
takes by reference, has as many faces after the call as before. -/
def ClusterizerContract (lvr : Lvr T) : Prop :=
  ∀ mesh normals normalThreshold iterations minClusterSize clusterSet mesh1 normals1,
    lvr.iterativePlanarClusterGrowing mesh normals normalThreshold iterations
        minClusterSize = Except.ok (clusterSet, mesh1, normals1) →
      lvr.numFaces mesh1 = lvr.numFaces mesh

/-! ## A library in which every call returns -/


/-- Every library type is `Nat`. -/
@[reducible] def natTypes : LvrTypes where
  Float32 := Nat
  Float64 := Nat
  CloudData := Nat
  TriangleMesh := Nat
  PointBuffer := Nat
  MeshBuffer := Nat
  Surface := Nat
  BoundingBox := Nat
  Grid := Nat
  FastReconstruction := Nat
  HalfEdgeMesh := Nat
  FaceNormals := Nat
  ClusterSet := Nat
  VertexNormals := Nat

/-- A library in which no call throws.  A point buffer is the number of its
points and carries no normals; a surface is its point buffer; a mesh, and a
mesh buffer, is the number of its faces, and extraction yields as many faces
as the grid has cells, one less than the surface has points. -/
def okLvr : Lvr natTypes where
  floatOfInt := Int.toNat
  floatOfDouble := fun d => d
  newPointBuffer := 0
  newMeshBuffer := 0
  newTriangleMesh := 0
  newHalfEdgeMesh := 0
  fromPointCloud2ToPointBuffer := fun cloud _ => Except.ok (true, cloud.data)
  fromMeshBufferToTriangleMesh := fun buffer _ => Except.ok (true, buffer)
  hasNormals := fun _ => false
  newAdaptiveKSearchSurface := fun buffer _ _ _ _ _ => Except.ok buffer
  setKd := fun s _ => s
  setKi := fun s _ => s
  setKn := fun s _ => s
  calculateSurfaceNormals := fun s => Except.ok s
  getBoundingBox := fun s => s
  newPointsetGrid := fun _ s _ _ _ => Except.ok (s - 1)
  calcDistanceValues := fun g => Except.ok g
  newFastReconstruction := fun g => Except.ok g
  getMesh := fun r _ => Except.ok r
  numFaces := fun m => m
  calcFaceNormals := fun m => Except.ok m
  iterativePlanarClusterGrowing := fun m n _ _ _ => Except.ok (1, m, n)
  planarClusterGrowing := fun _ _ _ => Except.ok 1
  calcVertexNormals := fun m _ _ => Except.ok m
  finalizeApply := fun _ m => Except.ok m
  bufferNumFaces := fun b => b

/-- A configuration with the given method and decomposition names; the
intersection count is -1, so the voxel size (10) is used. -/
def sampleConfig (pcm decomposition : String) : ReconstructionConfig natTypes where
  pcm := pcm
  kn := 10
  ki := 10
  kd := 5
  ransac := false
  recalcNormals := false
  intersections := -1
  voxelsize := 10
  decomposition := decomposition
  noExtrusion := false
  optimizePlanes := false
  normalThreshold := 85
  planeIterations := 3
  minPlaneSize := 7

/-- A cloud of `n` points. -/
def sampleCloud (n : Nat) : PointCloud2 natTypes where
  header := { frame_id := "map", stamp := 42 }
  data := n

/-- The process-wide state before the first call: the static is null. -/
def World.initial (T : LvrTypes) : World T where
  m_surface := none

/-- The sample node: method STANN, decomposition PMC. -/
def sampleNode : Reconstruction natTypes where
  config := sampleConfig "STANN" "PMC"

/-- A node whose point-surface-method name is unknown. -/
def unknownMethodNode : Reconstruction natTypes where
  config := sampleConfig "KDTREE" "PMC"

/-- A node whose point-surface-method name is PCL. -/
def pclNode : Reconstruction natTypes where
  config := sampleConfig "PCL" "PMC"

/-- A node whose decomposition name is unknown. -/
def unknownDecompositionNode : Reconstruction natTypes where
  config := sampleConfig "STANN" "OCTREE"

/-- A node whose decomposition name is MC. -/
def mcNode : Reconstruction natTypes where
  config := sampleConfig "STANN" "MC"

/-- A node whose decomposition name is SF. -/
def sfNode : Reconstruction natTypes where
  config := sampleConfig "STANN" "SF"

/-- A node whose point-surface-method name is STANN_RANSAC. -/
def stannRansacNode : Reconstruction natTypes where
  config := sampleConfig "STANN_RANSAC" "PMC"

/-- The sample node with the iterative cluster growing selected. -/
def optimizePlanesNode : Reconstruction natTypes where
  config := { sampleConfig "STANN" "PMC" with optimizePlanes := true }

/-- The sample node with the intersection count 100. -/
def intersectionsNode : Reconstruction natTypes where
  config := { sampleConfig "STANN" "PMC" with intersections := 100 }

/-- Modelled from the spec: a library that meets the contracts of sections
4.1, 4.4 and 4.5, the code of lvr2 not being among the sources.  It is `okLvr`
but for three functions: normal estimation "fails with `InsufficientNeighbors`
when fewer than 3 usable neighbors exist", the grid has three cells fewer than
the surface has points, so that extraction yields no face from three points,
and the finalizer "fails with `EmptyMeshError` if MeshTopology has zero
faces". -/
def specLvr : Lvr natTypes :=
  { okLvr with
    calculateSurfaceNormals := fun s =>
      if s < 3 then Except.error (Thrown.stdException "InsufficientNeighbors")
      else Except.ok s
    newPointsetGrid := fun _ s _ _ _ => Except.ok (s - 3)
    finalizeApply := fun _ m =>
      if m = 0 then Except.error (Thrown.stdException "EmptyMeshError") else Except.ok m }

/-! ## Stepping through a computation -/

namespace Result
variable {α : Type}

@[simp] theorem after_mk (l l1 : List (Event T)) (o : Outcome α) (w : World T) :
    Result.after l { outcome := o, events := l1, world := w } =
      { outcome := o, events := l ++ l1, world := w } := rfl

@[simp] theorem after_outcome (l : List (Event T)) (r : Result T α) :
    (r.after l).outcome = r.outcome := rfl

@[simp] theorem after_events (l : List (Event T)) (r : Result T α) :
    (r.after l).events = l ++ r.events := rfl

@[simp] theorem after_world (l : List (Event T)) (r : Result T α) :
    (r.after l).world = r.world := rfl

theorem allEvents_mk (P : Event T → Prop) (o : Outcome α) (l : List (Event T)) (w : World T) :
    Result.AllEvents P { outcome := o, events := l, world := w } ↔ ∀ e ∈ l, P e := Iff.rfl

end Result

namespace Run
variable {α β : Type}

@[simp] theorem pure_apply (a : α) (w : World T) :
    (pure a : Run T α) w = { outcome := Outcome.returned a, events := [], world := w } := rfl

@[simp] theorem pure_bind_apply (a : α) (f : α → Run T β) (w : World T) :
    ((pure a : Run T α) >>= f) w = f a w := rfl

@[simp] theorem emit_apply (e : Event T) (w : World T) :
    emit e w = { outcome := Outcome.returned (), events := [e], world := w } := rfl

@[simp] theorem emit_bind_apply (e : Event T) (f : Unit → Run T β) (w : World T) :
    (emit e >>= f) w = (f () w).after [e] := rfl

@[simp] theorem throwValue_apply (t : Thrown) (w : World T) :
    (throwValue t : Run T α) w = { outcome := Outcome.threw t, events := [], world := w } := rfl

@[simp] theorem throwValue_bind_apply (t : Thrown) (f : α → Run T β) (w : World T) :
    ((throwValue t : Run T α) >>= f) w
      = { outcome := Outcome.threw t, events := [], world := w } := rfl

@[simp] theorem call_ok_apply (e : Event T) (a : α) (w : World T) :
    call e (Except.ok a) w = { outcome := Outcome.returned a, events := [e], world := w } := rfl

@[simp] theorem call_error_apply (e : Event T) (t : Thrown) (w : World T) :
    call e (Except.error t : Except Thrown α) w
      = { outcome := Outcome.threw t, events := [e], world := w } := rfl

@[simp] theorem call_ok_bind_apply (e : Event T) (a : α) (f : α → Run T β) (w : World T) :
    (call e (Except.ok a) >>= f) w = (f a w).after [e] := rfl

@[simp] theorem call_error_bind_apply (e : Event T) (t : Thrown) (f : α → Run T β)
    (w : World T) :
    (call e (Except.error t : Except Thrown α) >>= f) w
      = { outcome := Outcome.threw t, events := [e], world := w } := rfl

@[simp] theorem deref_some_bind_apply (a : α) (f : α → Run T β) (w : World T) :
    (deref (some a) >>= f) w = f a w := rfl

@[simp] theorem deref_none_bind_apply (f : α → Run T β) (w : World T) :
    ((deref none : Run T α) >>= f) w
      = { outcome := Outcome.nullDereference, events := [], world := w } := rfl

@[simp] theorem setStaticSurface_bind_apply (s : Option T.Surface) (f : Unit → Run T β)
    (w : World T) :
    (setStaticSurface s >>= f) w = f () { w with m_surface := s } := rfl

theorem bind_of_returned (x : Run T α) (f : α → Run T β) (w : World T) (a : α)
    (l : List (Event T)) (w1 : World T)
    (h : x w = { outcome := Outcome.returned a, events := l, world := w1 }) :
    (x >>= f) w = (f a w1).after l := by
  show andThen x f w = _
  unfold andThen
  rw [h]

theorem bind_of_threw (x : Run T α) (f : α → Run T β) (w : World T) (t : Thrown)
    (l : List (Event T)) (w1 : World T)
    (h : x w = { outcome := Outcome.threw t, events := l, world := w1 }) :
    (x >>= f) w = { outcome := Outcome.threw t, events := l, world := w1 } := by
  show andThen x f w = _
  unfold andThen
  rw [h]

theorem bind_of_nullDereference (x : Run T α) (f : α → Run T β) (w : World T)
    (l : List (Event T)) (w1 : World T)
    (h : x w = { outcome := Outcome.nullDereference, events := l, world := w1 }) :
    (x >>= f) w = { outcome := Outcome.nullDereference, events := l, world := w1 } := by
  show andThen x f w = _
  unfold andThen
  rw [h]

theorem tryCatchStd_of_returned (body : Run T α) (handler : String → Run T α) (w : World T)
    (a : α) (l : List (Event T)) (w1 : World T)
    (h : body w = { outcome := Outcome.returned a, events := l, world := w1 }) :
    tryCatchStd body handler w = { outcome := Outcome.returned a, events := l, world := w1 } := by
  unfold tryCatchStd
  rw [h]

theorem bind_assoc_apply {γ : Type} (x : Run T α) (f : α → Run T β) (g : β → Run T γ)
    (w : World T) :
    ((x >>= f) >>= g) w = (x >>= fun a => f a >>= g) w := by
  show andThen (andThen x f) g w = andThen x (fun a => andThen (f a) g) w
  unfold andThen
  rcases x w with ⟨o, l, w1⟩
  cases o with
  | returned a =>
    simp only
    rcases f a w1 with ⟨o2, l2, w2⟩
    cases o2 <;> simp [Result.after]
  | threw t => rfl
  | nullDereference => rfl

end Run

/-! The rules below turn `Sat Q (x w)` into what `Q` has to satisfy at every
way `x` can end. -/

namespace Sat
variable {α β : Type}

theorem after_iff (Q : Result T α → Prop) (l : List (Event T)) (r : Result T α) :
    Sat Q (r.after l) ↔ Sat (fun r2 => Q (r2.after l)) r := Iff.rfl

theorem mk_iff (Q : Result T α → Prop) (o : Outcome α) (l : List (Event T)) (w : World T) :
    Sat Q { outcome := o, events := l, world := w } ↔ Q { outcome := o, events := l, world := w } :=
  Iff.rfl

theorem pure_iff (Q : Result T α → Prop) (a : α) (w : World T) :
    Sat Q ((pure a : Run T α) w) ↔ Q { outcome := Outcome.returned a, events := [], world := w } :=
  Iff.rfl

theorem pure_bind_iff (Q : Result T β → Prop) (a : α) (f : α → Run T β) (w : World T) :
    Sat Q (((pure a : Run T α) >>= f) w) ↔ Sat Q (f a w) := Iff.rfl

theorem emit_iff (Q : Result T Unit → Prop) (e : Event T) (w : World T) :
    Sat Q (emit e w) ↔ Q { outcome := Outcome.returned (), events := [e], world := w } :=
  Iff.rfl

theorem emit_bind_iff (Q : Result T β → Prop) (e : Event T) (f : Unit → Run T β)
    (w : World T) :
    Sat Q ((emit e >>= f) w) ↔ Sat (fun r => Q (r.after [e])) (f () w) := Iff.rfl

theorem throwValue_iff (Q : Result T α → Prop) (t : Thrown) (w : World T) :
    Sat Q ((throwValue t : Run T α) w) ↔
      Q { outcome := Outcome.threw t, events := [], world := w } := Iff.rfl

theorem throwValue_bind_iff (Q : Result T β → Prop) (t : Thrown) (f : α → Run T β)
    (w : World T) :
    Sat Q (((throwValue t : Run T α) >>= f) w) ↔
      Q { outcome := Outcome.threw t, events := [], world := w } := Iff.rfl

theorem call_iff (Q : Result T α → Prop) (e : Event T) (r : Except Thrown α)
    (w : World T) :
    Sat Q (call e r w) ↔
      (∀ a, r = Except.ok a → Q { outcome := Outcome.returned a, events := [e], world := w }) ∧
      (∀ t, r = Except.error t → Q { outcome := Outcome.threw t, events := [e], world := w }) := by
  cases r <;> simp [Sat, call]

theorem call_bind_iff (Q : Result T β → Prop) (e : Event T) (r : Except Thrown α)
    (f : α → Run T β) (w : World T) :
    Sat Q ((call e r >>= f) w) ↔
      (∀ a, r = Except.ok a → Sat (fun r2 => Q (r2.after [e])) (f a w)) ∧
      (∀ t, r = Except.error t → Q { outcome := Outcome.threw t, events := [e], world := w }) := by
  cases r <;> simp [Sat]

theorem deref_bind_iff (Q : Result T β → Prop) (p : Option α) (f : α → Run T β)
    (w : World T) :
    Sat Q ((deref p >>= f) w) ↔
      (∀ a, p = some a → Sat Q (f a w)) ∧
      (p = none → Q { outcome := Outcome.nullDereference, events := [], world := w }) := by
  cases p <;> simp [Sat]

theorem setStaticSurface_bind_iff (Q : Result T β → Prop) (s : Option T.Surface)
    (f : Unit → Run T β) (w : World T) :
    Sat Q ((setStaticSurface s >>= f) w) ↔ Sat Q (f () { w with m_surface := s }) := Iff.rfl

theorem bind_bind_iff {γ : Type} (Q : Result T γ → Prop) (x : Run T α)
    (f : α → Run T β) (g : β → Run T γ) (w : World T) :
    Sat Q (((x >>= f) >>= g) w) ↔ Sat Q ((x >>= fun a => f a >>= g) w) := by
  unfold Sat
  rw [Run.bind_assoc_apply]

theorem ite_iff (Q : Result T α → Prop) (c : Prop) [Decidable c] (x y : Run T α)
    (w : World T) :
    Sat Q ((if c then x else y) w) ↔ (c → Sat Q (x w)) ∧ (¬c → Sat Q (y w)) := by
  split <;> simp [*]

theorem ite_bind_iff (Q : Result T β → Prop) (c : Prop) [Decidable c] (x y : Run T α)
    (f : α → Run T β) (w : World T) :
    Sat Q (((if c then x else y) >>= f) w) ↔
      (c → Sat Q ((x >>= f) w)) ∧ (¬c → Sat Q ((y >>= f) w)) := by
  split <;> simp [*]

end Sat

/-- Actions of a finished call that comes after the actions `l`. -/
theorem Sat.allEvents_after {α : Type} (P : Event T → Prop) (l : List (Event T))
    (r : Result T α) :
    Sat (fun r2 => Result.AllEvents P (r2.after l)) r ↔
      (∀ e ∈ l, P e) ∧ Sat (Result.AllEvents P) r := by
  simp only [Sat, Result.AllEvents, Result.after_events, List.mem_append]
  constructor
  · intro h
    exact ⟨fun e he => h e (Or.inl he), fun e he => h e (Or.inr he)⟩
  · rintro ⟨h1, h2⟩ e (he | he)
    · exact h1 e he
    · exact h2 e he

/-! ## The reconstruction proper -/

namespace Reconstruction

/-- Every action of `createMesh` is one of those listed in `CreateMeshEvent`,
however the call ends. -/
theorem createMesh_events (self : Reconstruction T) (lvr : Lvr T) (pb : T.PointBuffer)
    (mb : T.MeshBuffer) (w : World T) :
    (createMesh self lvr pb mb w).AllEvents (CreateMeshEvent self.config lvr pb) := by
  show Sat (Result.AllEvents (CreateMeshEvent self.config lvr pb)) (createMesh self lvr pb mb w)
  unfold createMesh
  simp only [↓Sat.allEvents_after, Sat.after_iff, Sat.mk_iff, Sat.pure_iff, Sat.pure_bind_iff,
    Sat.emit_iff, Sat.emit_bind_iff, Sat.throwValue_iff, Sat.throwValue_bind_iff, Sat.call_iff,
    Sat.call_bind_iff, Sat.deref_bind_iff, Sat.setStaticSurface_bind_iff, Sat.bind_bind_iff,
    Sat.ite_iff, Sat.ite_bind_iff, Result.after_mk, Result.allEvents_mk,
    List.forall_mem_singleton, List.not_mem_nil, true_and, and_true, implies_true,
    false_implies]
  simp +contextual [CreateMeshEvent, GridResolutionOk, GridExtrusionOk]

/-- C4: when `config.pcm` is none of PCL, STANN, FLANN, NABO and NANOFLANN,
`createMesh(point_buffer, mesh_buffer)` returns false with `mesh_buffer` as it
was, and all it does is log four error lines: no surface is built, no normals
are estimated, no grid, extraction, clustering or finalization is run, and the
static is not assigned. -/
theorem createMesh_unknown_pcm (self : Reconstruction T) (lvr : Lvr T) (pb : T.PointBuffer)
    (mb : T.MeshBuffer) (w : World T)
    (h : self.config.pcm ∉ ["PCL", "STANN", "FLANN", "NABO", "NANOFLANN"]) :
    createMesh self lvr pb mb w =
      { outcome := Outcome.returned (false, mb),
        events :=
          [Event.rosError "Unable to create PointCloudManager.",
           Event.rosError ("Unknown option '" ++ self.config.pcm ++ "'."),
           Event.rosError "Available PCMs are: ",
           Event.rosError "STANN, STANN_RANSAC, PCL"],
        world := w } := by
  simp only [List.mem_cons, List.mem_singleton, List.not_mem_nil, not_or, or_false] at h
  obtain ⟨h1, h2, h3, h4, h5⟩ := h
  unfold createMesh
  simp [h1, h2, h3, h4, h5]

/-- C4, on a sample: the method name KDTREE is unknown. -/
theorem createMesh_unknown_pcm_witness :
    "KDTREE" ∉ ["PCL", "STANN", "FLANN", "NABO", "NANOFLANN"] ∧
    createMesh { config := sampleConfig "KDTREE" "PMC" } okLvr 5 0 (World.initial natTypes) =
      { outcome := Outcome.returned (false, 0),
        events :=
          [Event.rosError "Unable to create PointCloudManager.",
           Event.rosError ("Unknown option '" ++ "KDTREE" ++ "'."),
           Event.rosError "Available PCMs are: ",
           Event.rosError "STANN, STANN_RANSAC, PCL"],
        world := World.initial natTypes } :=
  ⟨by decide,
    createMesh_unknown_pcm { config := sampleConfig "KDTREE" "PMC" } okLvr 5 0
      (World.initial natTypes) (by decide)⟩

/-- The sample node on a cloud of five points: every stage runs. -/
theorem createMesh_sample :
    createMesh sampleNode okLvr 5 0 (World.initial natTypes) =
      { outcome := Outcome.returned (true, 4),
        events :=
          [Event.newAdaptiveKSearchSurface 5 "STANN" 10 10 5 false, Event.setKd 5,
           Event.setKi 10, Event.setKn 10, Event.calculateSurfaceNormals 5,
           Event.newPointsetGrid 10 5 5 true true, Event.calcDistanceValues 4,
           Event.newFastReconstruction 4, Event.getMesh 4 0, Event.calcFaceNormals 4,
           Event.planarClusterGrowing 4 4 85, Event.calcVertexNormals 4 4 5,
           Event.finalizeApply 4 4, Event.rosInfo "Reconstruction finished!"],
        world := { m_surface := some 5 } } := rfl

/-- C7: the resolution pair `createMesh` chooses is `(config.intersections,
useVoxelsize = false)` if `config.intersections > 0` and `(config.voxelsize,
useVoxelsize = true)` otherwise, both converted to `float`; so the voxel size
is used exactly when the intersection count is not positive.  The pair is
what the grid is built with: no run builds a grid with another pair, and every
run that reaches the construction of the grid (a supported method, a surface
that is built, normals that are there or estimated, a decomposition other than
MC and SF) builds the grid once, with the pair. -/
theorem createMesh_grid_resolution (self : Reconstruction T) (lvr : Lvr T)
    (pb : T.PointBuffer) (mb : T.MeshBuffer) (w : World T) :
    (∀ resolution surface boundingBox useVoxelsize extrude,
      Event.newPointsetGrid resolution surface boundingBox useVoxelsize extrude ∈
          (createMesh self lvr pb mb w).events →
        (self.config.intersections > 0 →
          resolution = lvr.floatOfInt self.config.intersections ∧ useVoxelsize = false) ∧
        (¬ self.config.intersections > 0 →
          resolution = lvr.floatOfDouble self.config.voxelsize ∧ useVoxelsize = true) ∧
        (useVoxelsize = true ↔ ¬ self.config.intersections > 0)) ∧
    (∀ surface surface1,
      self.config.pcm ∈ ["STANN", "FLANN", "NABO", "NANOFLANN"] →
      lvr.newAdaptiveKSearchSurface pb self.config.pcm self.config.kn self.config.ki
        self.config.kd self.config.ransac = Except.ok surface →
      (if (!lvr.hasNormals pb || self.config.recalcNormals) = true then
          lvr.calculateSurfaceNormals
            (lvr.setKn (lvr.setKi (lvr.setKd surface self.config.kd) self.config.ki)
              self.config.kn)
        else
          Except.ok
            (lvr.setKn (lvr.setKi (lvr.setKd surface self.config.kd) self.config.ki)
              self.config.kn)) = Except.ok surface1 →
      self.config.decomposition ≠ "MC" ∧ self.config.decomposition ≠ "SF" →
        (createMesh self lvr pb mb w).events.filter Event.isNewPointsetGrid =
            [Event.newPointsetGrid
              (if self.config.intersections > 0 then lvr.floatOfInt self.config.intersections
                else lvr.floatOfDouble self.config.voxelsize)
              surface1 (lvr.getBoundingBox surface1)
              (if self.config.intersections > 0 then false else true)
              (!self.config.noExtrusion)] ∧
        (self.config.intersections > 0 →
          Event.newPointsetGrid (lvr.floatOfInt self.config.intersections) surface1
              (lvr.getBoundingBox surface1) false (!self.config.noExtrusion) ∈
            (createMesh self lvr pb mb w).events) ∧
        (¬ self.config.intersections > 0 →
          Event.newPointsetGrid (lvr.floatOfDouble self.config.voxelsize) surface1
              (lvr.getBoundingBox surface1) true (!self.config.noExtrusion) ∈
            (createMesh self lvr pb mb w).events)) := by
  constructor
  · intro resolution surface boundingBox useVoxelsize extrude h
    have key := createMesh_events self lvr pb mb w _ h
    simp only [CreateMeshEvent, GridResolutionOk] at key
    obtain ⟨⟨hpos, hneg⟩, -⟩ := key
    refine ⟨hpos, hneg, ?_⟩
    by_cases hi : self.config.intersections > 0
    · simp [hi, (hpos hi).2]
    · simp [hi, (hneg hi).2]
  · intro surface surface1 hpcm hs hn hd
    have hsup : self.config.pcm = "STANN" ∨ self.config.pcm = "FLANN" ∨
        self.config.pcm = "NABO" ∨ self.config.pcm = "NANOFLANN" := by
      simpa using hpcm
    have hPCL : ¬ self.config.pcm = "PCL" := by
      rcases hsup with h | h | h | h <;> simp [h]
    have hfilter : (createMesh self lvr pb mb w).events.filter Event.isNewPointsetGrid =
        [Event.newPointsetGrid
          (if self.config.intersections > 0 then lvr.floatOfInt self.config.intersections
            else lvr.floatOfDouble self.config.voxelsize)
          surface1 (lvr.getBoundingBox surface1)
          (if self.config.intersections > 0 then false else true)
          (!self.config.noExtrusion)] := by
      show Sat (fun r => r.events.filter Event.isNewPointsetGrid = _)
        (createMesh self lvr pb mb w)
      unfold createMesh
      by_cases hc : (!lvr.hasNormals pb || self.config.recalcNormals) = true
      · rw [if_pos hc] at hn
        simp only [Sat.after_iff, Sat.mk_iff, Sat.pure_iff, Sat.pure_bind_iff,
          Sat.emit_iff, Sat.emit_bind_iff, Sat.throwValue_iff, Sat.throwValue_bind_iff,
          Sat.call_iff, Sat.call_bind_iff, Sat.deref_bind_iff, Sat.setStaticSurface_bind_iff,
          Sat.bind_bind_iff, Sat.ite_iff, Sat.ite_bind_iff, Result.after_mk, reduceCtorEq,
          String.reduceEq, false_implies, implies_true, and_true, true_and,
          not_true_eq_false, not_false_eq_true, forall_const, true_implies,
          hPCL, hsup, hs, hc, hn, Except.ok.injEq, Option.some.injEq, forall_eq']
        simp +contextual [Event.isNewPointsetGrid, List.filter, hd.1, hd.2]
      · rw [if_neg hc, Except.ok.injEq] at hn
        subst hn
        simp only [Sat.after_iff, Sat.mk_iff, Sat.pure_iff, Sat.pure_bind_iff,
          Sat.emit_iff, Sat.emit_bind_iff, Sat.throwValue_iff, Sat.throwValue_bind_iff,
          Sat.call_iff, Sat.call_bind_iff, Sat.deref_bind_iff, Sat.setStaticSurface_bind_iff,
          Sat.bind_bind_iff, Sat.ite_iff, Sat.ite_bind_iff, Result.after_mk, reduceCtorEq,
          String.reduceEq, false_implies, implies_true, and_true, true_and,
          not_true_eq_false, not_false_eq_true, forall_const, true_implies,
          hPCL, hsup, hs, hc, Except.ok.injEq, Option.some.injEq, forall_eq']
        simp +contextual [Event.isNewPointsetGrid, List.filter, hd.1, hd.2]
    have hmem : ∀ e, e ∈ (createMesh self lvr pb mb w).events.filter
        Event.isNewPointsetGrid → e ∈ (createMesh self lvr pb mb w).events :=
      fun e he => (List.mem_filter.mp he).1
    refine ⟨hfilter, ?_, ?_⟩
    · intro hi
      apply hmem
      rw [hfilter]
      simp [hi]
    · intro hi
      apply hmem
      rw [hfilter]
      simp [hi]

/-- C7, on two samples: with the intersection count -1 the grid is built with
the voxel size 10, with the intersection count 100 it is built with 100 and
`useVoxelsize` false. -/
theorem createMesh_grid_resolution_witness :
    createMesh intersectionsNode okLvr 5 0 (World.initial natTypes) =
      { outcome := Outcome.returned (true, 4),
        events :=
          [Event.newAdaptiveKSearchSurface 5 "STANN" 10 10 5 false, Event.setKd 5,
           Event.setKi 10, Event.setKn 10, Event.calculateSurfaceNormals 5,
           Event.newPointsetGrid 100 5 5 false true, Event.calcDistanceValues 4,
           Event.newFastReconstruction 4, Event.getMesh 4 0, Event.calcFaceNormals 4,
           Event.planarClusterGrowing 4 4 85, Event.calcVertexNormals 4 4 5,
           Event.finalizeApply 4 4, Event.rosInfo "Reconstruction finished!"],
        world := { m_surface := some 5 } } ∧
    (createMesh intersectionsNode okLvr 5 0 (World.initial natTypes)).events.filter
        Event.isNewPointsetGrid =
      [Event.newPointsetGrid
        (if intersectionsNode.config.intersections > 0 then
          okLvr.floatOfInt intersectionsNode.config.intersections
          else okLvr.floatOfDouble intersectionsNode.config.voxelsize)
        5 (okLvr.getBoundingBox 5)
        (if intersectionsNode.config.intersections > 0 then false else true)
        (!intersectionsNode.config.noExtrusion)] ∧
    Event.newPointsetGrid (okLvr.floatOfInt intersectionsNode.config.intersections) 5
        (okLvr.getBoundingBox 5) false (!intersectionsNode.config.noExtrusion) ∈
      (createMesh intersectionsNode okLvr 5 0 (World.initial natTypes)).events ∧
    Event.newPointsetGrid (okLvr.floatOfDouble sampleNode.config.voxelsize) 5
        (okLvr.getBoundingBox 5) true (!sampleNode.config.noExtrusion) ∈
      (createMesh sampleNode okLvr 5 0 (World.initial natTypes)).events :=
  ⟨rfl,
    ((createMesh_grid_resolution intersectionsNode okLvr 5 0 (World.initial natTypes)).2 5 5
      (by decide) rfl rfl (by decide)).1,
    ((createMesh_grid_resolution intersectionsNode okLvr 5 0 (World.initial natTypes)).2 5 5
      (by decide) rfl rfl (by decide)).2.1 (by decide),
    ((createMesh_grid_resolution sampleNode okLvr 5 0 (World.initial natTypes)).2 5 5
      (by decide) rfl rfl (by decide)).2.2 (by decide)⟩

/-- C10: whenever `createMesh` builds the grid, it builds it over the bounding
box of the surface it passes, with extrusion enabled if and only if
`config.noExtrusion` is false. -/
theorem createMesh_grid_extrusion (self : Reconstruction T) (lvr : Lvr T)
    (pb : T.PointBuffer) (mb : T.MeshBuffer) (w : World T)
    (resolution : T.Float32) (surface : T.Surface) (boundingBox : T.BoundingBox)
    (useVoxelsize extrude : Bool)
    (h : Event.newPointsetGrid resolution surface boundingBox useVoxelsize extrude ∈
      (createMesh self lvr pb mb w).events) :
    boundingBox = lvr.getBoundingBox surface ∧
    extrude = (!self.config.noExtrusion) ∧
    (extrude = true ↔ self.config.noExtrusion = false) := by
  have key := createMesh_events self lvr pb mb w _ h
  simp only [CreateMeshEvent, GridExtrusionOk] at key
  obtain ⟨-, hbox, hext⟩ := key
  refine ⟨hbox, hext, ?_⟩
  rw [hext]
  cases self.config.noExtrusion <;> simp

/-- C10, on the sample: `noExtrusion` is false and the grid is extruded. -/
theorem createMesh_grid_extrusion_witness :
    Event.newPointsetGrid 10 5 5 true true ∈
      (createMesh sampleNode okLvr 5 0 (World.initial natTypes)).events ∧
    ((5 : Nat) = okLvr.getBoundingBox 5 ∧
    true = (!sampleNode.config.noExtrusion) ∧
    (true = true ↔ sampleNode.config.noExtrusion = false)) :=
  have hmem : Event.newPointsetGrid 10 5 5 true true ∈
      (createMesh sampleNode okLvr 5 0 (World.initial natTypes)).events := by
    rw [createMesh_sample]
    simp
  ⟨hmem, createMesh_grid_extrusion sampleNode okLvr 5 0 (World.initial natTypes)
    10 5 5 true true hmem⟩

/-- C8: with a supported point-surface method, once the surface is built,
`createMesh` runs normal estimation (`calculateSurfaceNormals`, on the surface
with the search parameters set) if and only if the point buffer has no normals
or `config.recalcNormals` is set; otherwise it estimates nothing and logs that
the given normals are used. -/
theorem createMesh_normal_estimation (self : Reconstruction T) (lvr : Lvr T)
    (pb : T.PointBuffer) (mb : T.MeshBuffer) (w : World T) (surface : T.Surface)
    (hpcm : self.config.pcm ∈ ["STANN", "FLANN", "NABO", "NANOFLANN"])
    (hs : lvr.newAdaptiveKSearchSurface pb self.config.pcm self.config.kn self.config.ki
      self.config.kd self.config.ransac = Except.ok surface) :
    ((∃ s, Event.calculateSurfaceNormals s ∈ (createMesh self lvr pb mb w).events) ↔
      (lvr.hasNormals pb = false ∨ self.config.recalcNormals = true)) ∧
    ((lvr.hasNormals pb = false ∨ self.config.recalcNormals = true) →
      Event.calculateSurfaceNormals
          (lvr.setKn (lvr.setKi (lvr.setKd surface self.config.kd) self.config.ki)
            self.config.kn) ∈ (createMesh self lvr pb mb w).events) ∧
    (¬ (lvr.hasNormals pb = false ∨ self.config.recalcNormals = true) →
      Event.rosInfo "Using given normals." ∈ (createMesh self lvr pb mb w).events) := by
  have hsup : self.config.pcm = "STANN" ∨ self.config.pcm = "FLANN" ∨
      self.config.pcm = "NABO" ∨ self.config.pcm = "NANOFLANN" := by
    simpa using hpcm
  have hPCL : ¬ self.config.pcm = "PCL" := by
    rcases hsup with h | h | h | h <;> simp [h]
  have hrun : ∀ _ : lvr.hasNormals pb = false ∨ self.config.recalcNormals = true,
      Event.calculateSurfaceNormals
          (lvr.setKn (lvr.setKi (lvr.setKd surface self.config.kd) self.config.ki)
            self.config.kn) ∈ (createMesh self lvr pb mb w).events := by
    intro hc
    have hc2 : (!lvr.hasNormals pb || self.config.recalcNormals) = true := by
      rcases hc with h | h <;> simp [h]
    unfold createMesh
    simp only [if_neg hPCL, if_pos hsup, hs, Run.call_ok_bind_apply, Run.emit_bind_apply,
      if_pos hc2, Result.after_events]
    rcases lvr.calculateSurfaceNormals
        (lvr.setKn (lvr.setKi (lvr.setKd surface self.config.kd) self.config.ki)
          self.config.kn) with t | s1
    · simp
    · simp
  have hskip : ¬ (lvr.hasNormals pb = false ∨ self.config.recalcNormals = true) →
      Event.rosInfo "Using given normals." ∈ (createMesh self lvr pb mb w).events := by
    intro hc
    have hc2 : ¬ (!lvr.hasNormals pb || self.config.recalcNormals) = true := by
      simpa using hc
    unfold createMesh
    simp only [if_neg hPCL, if_pos hsup, hs, Run.call_ok_bind_apply, Run.emit_bind_apply,
      if_neg hc2, Result.after_events, Run.bind_assoc_apply]
    simp
  refine ⟨⟨?_, fun hc => ⟨_, hrun hc⟩⟩, hrun, hskip⟩
  rintro ⟨s, hmem⟩
  have key := createMesh_events self lvr pb mb w _ hmem
  simpa only [CreateMeshEvent] using key

/-- C8, on the sample: the buffer has no normals, so they are estimated. -/
theorem createMesh_normal_estimation_witness :
    sampleNode.config.pcm ∈ ["STANN", "FLANN", "NABO", "NANOFLANN"] ∧
    okLvr.newAdaptiveKSearchSurface 5 sampleNode.config.pcm sampleNode.config.kn
      sampleNode.config.ki sampleNode.config.kd sampleNode.config.ransac = Except.ok 5 ∧
    (okLvr.hasNormals 5 = false ∨ sampleNode.config.recalcNormals = true) ∧
    Event.calculateSurfaceNormals
        (okLvr.setKn (okLvr.setKi (okLvr.setKd 5 sampleNode.config.kd) sampleNode.config.ki)
          sampleNode.config.kn) ∈
      (createMesh sampleNode okLvr 5 0 (World.initial natTypes)).events :=
  ⟨by decide, rfl, Or.inl rfl,
    (createMesh_normal_estimation sampleNode okLvr 5 0 (World.initial natTypes) 5
      (by decide) rfl).2.1 (Or.inl rfl)⟩

set_option maxHeartbeats 1000000 in
/-- C9: `createMesh` computes the cluster set with the iterative variant,
called with `(normalThreshold, planeIterations, minPlaneSize)` in that order,
if and only if `config.optimizePlanes` is set, and with the single-pass
variant, called with `normalThreshold`, otherwise; exactly one of the two
runs.  No run calls the iterative variant without the flag, the single-pass
variant with it, or makes two cluster-growing calls; and every run that
reaches the clustering (the earlier library calls return, up to the face
normals of the extracted mesh) makes the one call the flag selects, on that
mesh and those normals. -/
theorem createMesh_cluster_growing (self : Reconstruction T) (lvr : Lvr T)
    (pb : T.PointBuffer) (mb : T.MeshBuffer) (w : World T) :
    (∀ mesh normals normalThreshold planeIterations minPlaneSize,
      Event.iterativePlanarClusterGrowing mesh normals normalThreshold planeIterations
          minPlaneSize ∈ (createMesh self lvr pb mb w).events →
        self.config.optimizePlanes = true ∧ normalThreshold = self.config.normalThreshold ∧
          planeIterations = self.config.planeIterations ∧
          minPlaneSize = self.config.minPlaneSize) ∧
    (∀ mesh normals normalThreshold,
      Event.planarClusterGrowing mesh normals normalThreshold ∈
          (createMesh self lvr pb mb w).events →
        self.config.optimizePlanes = false ∧ normalThreshold = self.config.normalThreshold) ∧
    ((createMesh self lvr pb mb w).events.filter Event.isClusterGrowing).length ≤ 1 ∧
    (∀ surface surface1 grid grid1 extractor mesh normals,
      self.config.pcm ∈ ["STANN", "FLANN", "NABO", "NANOFLANN"] →
      lvr.newAdaptiveKSearchSurface pb self.config.pcm self.config.kn self.config.ki
        self.config.kd self.config.ransac = Except.ok surface →
      (if (!lvr.hasNormals pb || self.config.recalcNormals) = true then
          lvr.calculateSurfaceNormals
            (lvr.setKn (lvr.setKi (lvr.setKd surface self.config.kd) self.config.ki)
              self.config.kn)
        else
          Except.ok
            (lvr.setKn (lvr.setKi (lvr.setKd surface self.config.kd) self.config.ki)
              self.config.kn)) = Except.ok surface1 →
      self.config.decomposition ≠ "MC" ∧ self.config.decomposition ≠ "SF" →
      lvr.newPointsetGrid
        (if self.config.intersections > 0 then lvr.floatOfInt self.config.intersections
          else lvr.floatOfDouble self.config.voxelsize)
        surface1 (lvr.getBoundingBox surface1)
        (if self.config.intersections > 0 then false else true)
        (!self.config.noExtrusion) = Except.ok grid →
      lvr.calcDistanceValues grid = Except.ok grid1 →
      lvr.newFastReconstruction grid1 = Except.ok extractor →
      lvr.getMesh extractor lvr.newHalfEdgeMesh = Except.ok mesh →
      lvr.calcFaceNormals mesh = Except.ok normals →
        (createMesh self lvr pb mb w).events.filter Event.isClusterGrowing =
            [if self.config.optimizePlanes = true then
              Event.iterativePlanarClusterGrowing mesh normals self.config.normalThreshold
                self.config.planeIterations self.config.minPlaneSize
            else
              Event.planarClusterGrowing mesh normals self.config.normalThreshold] ∧
        (self.config.optimizePlanes = true →
          Event.iterativePlanarClusterGrowing mesh normals self.config.normalThreshold
              self.config.planeIterations self.config.minPlaneSize ∈
            (createMesh self lvr pb mb w).events) ∧
        (self.config.optimizePlanes = false →
          Event.planarClusterGrowing mesh normals self.config.normalThreshold ∈
            (createMesh self lvr pb mb w).events)) := by
  refine ⟨?_, ?_, ?_, ?_⟩
  · intro mesh normals normalThreshold planeIterations minPlaneSize hmem
    have key := createMesh_events self lvr pb mb w _ hmem
    simpa only [CreateMeshEvent] using key
  · intro mesh normals normalThreshold hmem
    have key := createMesh_events self lvr pb mb w _ hmem
    simpa only [CreateMeshEvent] using key
  · show Sat (fun r => (r.events.filter Event.isClusterGrowing).length ≤ 1)
      (createMesh self lvr pb mb w)
    unfold createMesh
    simp only [Sat.after_iff, Sat.mk_iff, Sat.pure_iff, Sat.pure_bind_iff,
      Sat.emit_iff, Sat.emit_bind_iff, Sat.throwValue_iff, Sat.throwValue_bind_iff,
      Sat.call_iff, Sat.call_bind_iff, Sat.deref_bind_iff, Sat.setStaticSurface_bind_iff,
      Sat.bind_bind_iff, Sat.ite_iff, Sat.ite_bind_iff, Result.after_mk, reduceCtorEq,
      String.reduceEq, false_implies, implies_true, and_true, true_and, not_true_eq_false,
      not_false_eq_true, forall_const, true_implies]
    simp +contextual [Event.isClusterGrowing, List.filter]
  · intro surface surface1 grid grid1 extractor mesh normals hpcm hs hn hd hgrid hdist hrec
      hmesh hfn
    have hsup : self.config.pcm = "STANN" ∨ self.config.pcm = "FLANN" ∨
        self.config.pcm = "NABO" ∨ self.config.pcm = "NANOFLANN" := by
      simpa using hpcm
    have hPCL : ¬ self.config.pcm = "PCL" := by
      rcases hsup with h | h | h | h <;> simp [h]
    have hfilter : (createMesh self lvr pb mb w).events.filter Event.isClusterGrowing =
        [if self.config.optimizePlanes = true then
          Event.iterativePlanarClusterGrowing mesh normals self.config.normalThreshold
            self.config.planeIterations self.config.minPlaneSize
        else
          Event.planarClusterGrowing mesh normals self.config.normalThreshold] := by
      show Sat (fun r => r.events.filter Event.isClusterGrowing = _)
        (createMesh self lvr pb mb w)
      unfold createMesh
      by_cases hc : (!lvr.hasNormals pb || self.config.recalcNormals) = true
      · rw [if_pos hc] at hn
        simp only [Sat.after_iff, Sat.mk_iff, Sat.pure_iff, Sat.pure_bind_iff,
          Sat.emit_iff, Sat.emit_bind_iff, Sat.throwValue_iff, Sat.throwValue_bind_iff,
          Sat.call_iff, Sat.call_bind_iff, Sat.deref_bind_iff, Sat.setStaticSurface_bind_iff,
          Sat.bind_bind_iff, Sat.ite_iff, Sat.ite_bind_iff, Result.after_mk, reduceCtorEq,
          String.reduceEq, false_implies, implies_true, and_true, true_and,
          not_true_eq_false, not_false_eq_true, forall_const, true_implies,
          hPCL, hsup, hs, hc, hn, hgrid, hdist, hrec, hmesh, hfn, Except.ok.injEq,
          Option.some.injEq, forall_eq']
        simp +contextual [Event.isClusterGrowing, List.filter, hd.1, hd.2, hmesh, hfn]
      · rw [if_neg hc, Except.ok.injEq] at hn
        subst hn
        simp only [Sat.after_iff, Sat.mk_iff, Sat.pure_iff, Sat.pure_bind_iff,
          Sat.emit_iff, Sat.emit_bind_iff, Sat.throwValue_iff, Sat.throwValue_bind_iff,
          Sat.call_iff, Sat.call_bind_iff, Sat.deref_bind_iff, Sat.setStaticSurface_bind_iff,
          Sat.bind_bind_iff, Sat.ite_iff, Sat.ite_bind_iff, Result.after_mk, reduceCtorEq,
          String.reduceEq, false_implies, implies_true, and_true, true_and,
          not_true_eq_false, not_false_eq_true, forall_const, true_implies,
          hPCL, hsup, hs, hc, hgrid, hdist, hrec, hmesh, hfn, Except.ok.injEq,
          Option.some.injEq, forall_eq']
        simp +contextual [Event.isClusterGrowing, List.filter, hd.1, hd.2, hmesh, hfn]
    have hmem : ∀ e, e ∈ (createMesh self lvr pb mb w).events.filter
        Event.isClusterGrowing → e ∈ (createMesh self lvr pb mb w).events :=
      fun e he => (List.mem_filter.mp he).1
    refine ⟨hfilter, ?_, ?_⟩
    · intro hi
      apply hmem
      rw [hfilter]
      simp [hi]
    · intro hi
      apply hmem
      rw [hfilter]
      simp [hi]

/-- C9, on two samples: with the flag set the one cluster-growing call is the
iterative one, with the flag not set it is the single-pass one. -/
theorem createMesh_cluster_growing_witness :
    createMesh optimizePlanesNode okLvr 5 0 (World.initial natTypes) =
      { outcome := Outcome.returned (true, 4),
        events :=
          [Event.newAdaptiveKSearchSurface 5 "STANN" 10 10 5 false, Event.setKd 5,
           Event.setKi 10, Event.setKn 10, Event.calculateSurfaceNormals 5,
           Event.newPointsetGrid 10 5 5 true true, Event.calcDistanceValues 4,
           Event.newFastReconstruction 4, Event.getMesh 4 0, Event.calcFaceNormals 4,
           Event.iterativePlanarClusterGrowing 4 4 85 3 7, Event.calcVertexNormals 4 4 5,
           Event.finalizeApply 4 4, Event.rosInfo "Reconstruction finished!"],
        world := { m_surface := some 5 } } ∧
    optimizePlanesNode.config.optimizePlanes = true ∧
    (createMesh optimizePlanesNode okLvr 5 0 (World.initial natTypes)).events.filter
        Event.isClusterGrowing =
      [if optimizePlanesNode.config.optimizePlanes = true then
        Event.iterativePlanarClusterGrowing 4 4 optimizePlanesNode.config.normalThreshold
          optimizePlanesNode.config.planeIterations optimizePlanesNode.config.minPlaneSize
      else
        Event.planarClusterGrowing 4 4 optimizePlanesNode.config.normalThreshold] ∧
    Event.iterativePlanarClusterGrowing 4 4 optimizePlanesNode.config.normalThreshold
        optimizePlanesNode.config.planeIterations optimizePlanesNode.config.minPlaneSize ∈
      (createMesh optimizePlanesNode okLvr 5 0 (World.initial natTypes)).events ∧
    sampleNode.config.optimizePlanes = false ∧
    Event.planarClusterGrowing 4 4 sampleNode.config.normalThreshold ∈
      (createMesh sampleNode okLvr 5 0 (World.initial natTypes)).events :=
  ⟨rfl, rfl,
    ((createMesh_cluster_growing optimizePlanesNode okLvr 5 0 (World.initial natTypes)).2.2.2
      5 5 4 4 4 4 4 (by decide) rfl rfl (by decide) rfl rfl rfl rfl rfl).1,
    ((createMesh_cluster_growing optimizePlanesNode okLvr 5 0 (World.initial natTypes)).2.2.2
      5 5 4 4 4 4 4 (by decide) rfl rfl (by decide) rfl rfl rfl rfl rfl).2.1 rfl,
    rfl,
    ((createMesh_cluster_growing sampleNode okLvr 5 0 (World.initial natTypes)).2.2.2
      5 5 4 4 4 4 4 (by decide) rfl rfl (by decide) rfl rfl rfl rfl rfl).2.2 rfl⟩

end Reconstruction

namespace Result
variable {α β : Type}

theorem sameButFor_refl (e : Event T) (r : Result T α)
    (h : ∀ x ∈ r.events, x.isNewPointsetGrid = false) : r.SameButFor e r :=
  ⟨rfl, rfl, Or.inl ⟨rfl, h⟩⟩

theorem sameButFor_after (e : Event T) (l : List (Event T)) {r1 r2 : Result T α}
    (hl : ∀ x ∈ l, x.isNewPointsetGrid = false)
    (h : r1.SameButFor e r2) : (r1.after l).SameButFor e (r2.after l) := by
  obtain ⟨ho, hw, hev⟩ := h
  refine ⟨ho, hw, ?_⟩
  rcases hev with ⟨hev, hno⟩ | ⟨before, later, h2, h1⟩
  · refine Or.inl ⟨by simp [hev], ?_⟩
    intro x hx
    rcases List.mem_append.mp hx with hx | hx
    · exact hl x hx
    · exact hno x hx
  · exact Or.inr ⟨l ++ before, later, by simp [h2], by simp [h1]⟩

/-- Two computations that start alike, without building the grid, and go on
alike but for `e` end alike but for `e`. -/
theorem sameButFor_bind (e : Event T) (x : Run T α) (f g : α → Run T β) (w : World T)
    (hx : ∀ y ∈ (x w).events, y.isNewPointsetGrid = false)
    (h : ∀ a w1, (f a w1).SameButFor e (g a w1)) :
    ((x >>= f) w).SameButFor e ((x >>= g) w) := by
  show (Run.andThen x f w).SameButFor e (Run.andThen x g w)
  unfold Run.andThen
  rcases hxw : x w with ⟨o, l, w1⟩
  rw [hxw] at hx
  cases o with
  | returned a => exact sameButFor_after e l hx (h a w1)
  | threw t => exact sameButFor_refl e _ hx
  | nullDereference => exact sameButFor_refl e _ hx

end Result

namespace Reconstruction

/-- C5, refuted as stated: under the unknown decomposition name OCTREE
`createMesh` logs an error, goes on with PMC, returns true and hands out a
mesh buffer (of four faces, in place of the buffer 7 it was given). -/
theorem createMesh_unknown_decomposition_counterexample :
    unknownDecompositionNode.config.decomposition ∉ ["MC", "PMC", "SF"] ∧
    createMesh unknownDecompositionNode okLvr 5 7 (World.initial natTypes) =
      { outcome := Outcome.returned (true, 4),
        events :=
          [Event.newAdaptiveKSearchSurface 5 "STANN" 10 10 5 false, Event.setKd 5,
           Event.setKi 10, Event.setKn 10, Event.calculateSurfaceNormals 5,
           Event.rosError "Unsupported decomposition type OCTREE. Defaulting to PMC.",
           Event.newPointsetGrid 10 5 5 true true, Event.calcDistanceValues 4,
           Event.newFastReconstruction 4, Event.getMesh 4 0, Event.calcFaceNormals 4,
           Event.planarClusterGrowing 4 4 85, Event.calcVertexNormals 4 4 5,
           Event.finalizeApply 4 4, Event.rosInfo "Reconstruction finished!"],
        world := { m_surface := some 5 } } :=
  ⟨by decide, rfl⟩

/-- C5, amended: under a decomposition name other than MC, PMC and SF,
`createMesh` ends exactly as under the same configuration with decomposition
PMC (same outcome, same returned flag and mesh buffer, same static) and takes
the same actions, with one more: the error log line
"Unsupported decomposition type ... Defaulting to PMC."; the line is missing
only from a run that ends before the fail safe check, without building the
grid. -/
theorem createMesh_unknown_decomposition (self : Reconstruction T) (lvr : Lvr T)
    (pb : T.PointBuffer) (mb : T.MeshBuffer) (w : World T)
    (h : self.config.decomposition ∉ ["MC", "PMC", "SF"]) :
    (createMesh self lvr pb mb w).SameButFor
      (Event.rosError ("Unsupported decomposition type " ++ self.config.decomposition ++
        ". Defaulting to PMC."))
      (createMesh { config := { self.config with decomposition := "PMC" } } lvr pb mb w) := by
  simp only [List.mem_cons, List.mem_singleton, List.not_mem_nil, not_or, or_false] at h
  obtain ⟨h1, h2, h3⟩ := h
  unfold createMesh
  simp only []
  by_cases hPCL : self.config.pcm = "PCL"
  · simp only [if_pos hPCL]
    exact Result.sameButFor_refl _ _ (by simp)
  simp only [if_neg hPCL]
  by_cases hsup : self.config.pcm = "STANN" ∨ self.config.pcm = "FLANN" ∨
      self.config.pcm = "NABO" ∨ self.config.pcm = "NANOFLANN"
  swap
  · simp only [if_neg hsup]
    exact Result.sameButFor_refl _ _ (by simp [Run.bind_assoc_apply, Event.isNewPointsetGrid])
  simp only [if_pos hsup]
  -- the surface, the three setters and the normals are the same on both sides
  refine Result.sameButFor_bind _ _ _ _ _ ?_ ?_
  · rcases lvr.newAdaptiveKSearchSurface pb self.config.pcm self.config.kn self.config.ki
      self.config.kd self.config.ransac with t | s0 <;> simp [Event.isNewPointsetGrid]
  intro surface w1
  refine Result.sameButFor_bind _ _ _ _ _ (by simp [Event.isNewPointsetGrid]) ?_
  intro _ w2
  refine Result.sameButFor_bind _ _ _ _ _ (by simp [Event.isNewPointsetGrid]) ?_
  intro _ w3
  refine Result.sameButFor_bind _ _ _ _ _ (by simp [Event.isNewPointsetGrid]) ?_
  intro _ w4
  refine Result.sameButFor_bind _ _ _ _ _ ?_ ?_
  · split
    · rcases lvr.calculateSurfaceNormals
        (lvr.setKn (lvr.setKi (lvr.setKd surface self.config.kd) self.config.ki)
          self.config.kn) with t | s1 <;> simp [Event.isNewPointsetGrid]
    · simp [Event.isNewPointsetGrid]
  intro surface2 w5
  -- the fail safe check: one side logs and takes PMC, the other has PMC
  have hc : self.config.decomposition ≠ "MC" ∧ self.config.decomposition ≠ "PMC" ∧
      self.config.decomposition ≠ "SF" := ⟨h1, h2, h3⟩
  have hP : ¬ ("PMC" ≠ "MC" ∧ "PMC" ≠ "PMC" ∧ "PMC" ≠ "SF") := by simp
  simp only [if_pos hc, if_neg hP, Run.bind_assoc_apply, Run.emit_bind_apply,
    Run.pure_bind_apply]
  exact ⟨rfl, rfl, Or.inr ⟨[], _, rfl, rfl⟩⟩

/-- C5 amended, on a sample: the name OCTREE. -/
theorem createMesh_unknown_decomposition_witness :
    unknownDecompositionNode.config.decomposition ∉ ["MC", "PMC", "SF"] ∧
    (createMesh unknownDecompositionNode okLvr 5 7 (World.initial natTypes)).SameButFor
      (Event.rosError ("Unsupported decomposition type " ++
        unknownDecompositionNode.config.decomposition ++ ". Defaulting to PMC."))
      (createMesh { config := { unknownDecompositionNode.config with decomposition := "PMC" } }
        okLvr 5 7 (World.initial natTypes)) :=
  ⟨by decide,
    createMesh_unknown_decomposition unknownDecompositionNode okLvr 5 7
      (World.initial natTypes) (by decide)⟩

/-- The library `specLvr` meets the contract of the mesh finalizer. -/
theorem specLvr_meshFinalizerContract :
    MeshFinalizerContract specLvr (Thrown.stdException "EmptyMeshError") := by
  intro vertexNormals mesh
  by_cases h : mesh = 0
  · simp [specLvr, okLvr, h]
  · simp [specLvr, okLvr, h]

/-- The library `specLvr` meets the contract of the iterative clusterizer. -/
theorem specLvr_clusterizerContract : ClusterizerContract specLvr := by
  intro mesh normals normalThreshold iterations minClusterSize clusterSet mesh1 normals1 h
  simp only [specLvr, okLvr, Except.ok.injEq, Prod.mk.injEq] at h
  rw [h.2.1]

set_option maxHeartbeats 1000000 in
/-- C6: with a mesh finalizer that meets its contract (it fails with
`EmptyMeshError` on a mesh with zero faces, and the buffer it assembles has a
triple per face), and, where the iterative cluster growing is selected, a
clusterizer that meets its own, `createMesh(point_buffer, mesh_buffer)` never
returns true with a mesh buffer that has zero faces; and on every input on
which extraction yields a mesh with zero faces it does not return: it passes
that mesh on, through the face normals, the cluster growing and the vertex
normals, to `finalize.apply`, and the `EmptyMeshError` of the finalizer leaves
`createMesh`, which has no handler (an error of one of the three steps before
leaves it the same way). -/
theorem createMesh_zero_faces (self : Reconstruction T) (lvr : Lvr T)
    (pb : T.PointBuffer) (mb : T.MeshBuffer) (w : World T) (emptyMeshError : Thrown)
    (hfin : MeshFinalizerContract lvr emptyMeshError)
    (hclu : self.config.optimizePlanes = true → ClusterizerContract lvr) :
    (∀ buffer, (createMesh self lvr pb mb w).outcome = Outcome.returned (true, buffer) →
      lvr.bufferNumFaces buffer ≠ 0) ∧
    (∀ surface surface1 grid grid1 extractor mesh,
      self.config.pcm ∈ ["STANN", "FLANN", "NABO", "NANOFLANN"] →
      lvr.newAdaptiveKSearchSurface pb self.config.pcm self.config.kn self.config.ki
        self.config.kd self.config.ransac = Except.ok surface →
      (if (!lvr.hasNormals pb || self.config.recalcNormals) = true then
          lvr.calculateSurfaceNormals
            (lvr.setKn (lvr.setKi (lvr.setKd surface self.config.kd) self.config.ki)
              self.config.kn)
        else
          Except.ok
            (lvr.setKn (lvr.setKi (lvr.setKd surface self.config.kd) self.config.ki)
              self.config.kn)) = Except.ok surface1 →
      self.config.decomposition ≠ "MC" ∧ self.config.decomposition ≠ "SF" →
      lvr.newPointsetGrid
        (if self.config.intersections > 0 then lvr.floatOfInt self.config.intersections
          else lvr.floatOfDouble self.config.voxelsize)
        surface1 (lvr.getBoundingBox surface1)
        (if self.config.intersections > 0 then false else true)
        (!self.config.noExtrusion) = Except.ok grid →
      lvr.calcDistanceValues grid = Except.ok grid1 →
      lvr.newFastReconstruction grid1 = Except.ok extractor →
      lvr.getMesh extractor lvr.newHalfEdgeMesh = Except.ok mesh →
      lvr.numFaces mesh = 0 →
        (∃ t, (createMesh self lvr pb mb w).outcome = Outcome.threw t) ∧
        (∀ normals, lvr.calcFaceNormals mesh = Except.ok normals →
          (self.config.optimizePlanes = false →
            ∀ clusterSet vertexNormals,
              lvr.planarClusterGrowing mesh normals self.config.normalThreshold =
                Except.ok clusterSet →
              lvr.calcVertexNormals mesh normals surface1 = Except.ok vertexNormals →
                (createMesh self lvr pb mb w).outcome = Outcome.threw emptyMeshError ∧
                Event.finalizeApply vertexNormals mesh ∈
                  (createMesh self lvr pb mb w).events) ∧
          (self.config.optimizePlanes = true →
            ∀ clusterSet mesh1 normals1 vertexNormals,
              lvr.iterativePlanarClusterGrowing mesh normals self.config.normalThreshold
                  self.config.planeIterations self.config.minPlaneSize =
                Except.ok (clusterSet, mesh1, normals1) →
              lvr.calcVertexNormals mesh1 normals1 surface1 = Except.ok vertexNormals →
                (createMesh self lvr pb mb w).outcome = Outcome.threw emptyMeshError ∧
                Event.finalizeApply vertexNormals mesh1 ∈
                  (createMesh self lvr pb mb w).events))) := by
  have hfull : ∀ vertexNormals mesh buffer,
      lvr.finalizeApply vertexNormals mesh = Except.ok buffer →
        ¬ lvr.bufferNumFaces buffer = 0 := by
    intro vertexNormals mesh buffer h h0
    have h1 := (hfin vertexNormals mesh).2 buffer h
    have h2 := (hfin vertexNormals mesh).1 (h1 ▸ h0)
    rw [h2] at h
    cases h
  have hempty : ∀ mesh, lvr.numFaces mesh = 0 → ∀ vertexNormals,
      lvr.finalizeApply vertexNormals mesh = Except.error emptyMeshError :=
    fun mesh h vertexNormals => (hfin vertexNormals mesh).1 h
  constructor
  · show Sat (fun r => ∀ buffer, r.outcome = Outcome.returned (true, buffer) →
      lvr.bufferNumFaces buffer ≠ 0) (createMesh self lvr pb mb w)
    unfold createMesh
    simp only [Sat.after_iff, Sat.mk_iff, Sat.pure_iff, Sat.pure_bind_iff,
      Sat.emit_iff, Sat.emit_bind_iff, Sat.throwValue_iff, Sat.throwValue_bind_iff,
      Sat.call_iff, Sat.call_bind_iff, Sat.deref_bind_iff, Sat.setStaticSurface_bind_iff,
      Sat.bind_bind_iff, Sat.ite_iff, Sat.ite_bind_iff, Result.after_mk, reduceCtorEq,
      String.reduceEq, false_implies, implies_true, and_true, true_and, not_true_eq_false,
      not_false_eq_true, forall_const, true_implies, Outcome.returned.injEq,
      Prod.mk.injEq, Bool.false_eq_true, false_and, forall_eq', ne_eq]
    repeat' first | intro _ | apply And.intro
    all_goals exact hfull _ _ _ (by assumption) (by assumption)
  · intro surface surface1 grid grid1 extractor mesh hpcm hs hn hd hgrid hdist hrec hmesh hzero
    have hsup : self.config.pcm = "STANN" ∨ self.config.pcm = "FLANN" ∨
        self.config.pcm = "NABO" ∨ self.config.pcm = "NANOFLANN" := by
      simpa using hpcm
    have hPCL : ¬ self.config.pcm = "PCL" := by
      rcases hsup with h | h | h | h <;> simp [h]
    have hnormals :
        ((!lvr.hasNormals pb || self.config.recalcNormals) = true ∧
          lvr.calculateSurfaceNormals
            (lvr.setKn (lvr.setKi (lvr.setKd surface self.config.kd) self.config.ki)
              self.config.kn) = Except.ok surface1) ∨
        (¬ (!lvr.hasNormals pb || self.config.recalcNormals) = true ∧
          lvr.setKn (lvr.setKi (lvr.setKd surface self.config.kd) self.config.ki)
            self.config.kn = surface1) := by
      by_cases hc : (!lvr.hasNormals pb || self.config.recalcNormals) = true
      · rw [if_pos hc] at hn
        exact Or.inl ⟨hc, hn⟩
      · rw [if_neg hc, Except.ok.injEq] at hn
        exact Or.inr ⟨hc, hn⟩
    have hfinal : ∀ vertexNormals,
        lvr.finalizeApply vertexNormals mesh = Except.error emptyMeshError :=
      hempty mesh hzero
    refine ⟨?_, fun normals hfn => ⟨fun hflag clusterSet vertexNormals hgrow hvn => ?_,
      fun hflag clusterSet mesh1 normals1 vertexNormals hgrow hvn => ?_⟩⟩
    · show Sat (fun r => ∃ t, r.outcome = Outcome.threw t) (createMesh self lvr pb mb w)
      unfold createMesh
      rcases hfn : lvr.calcFaceNormals mesh with t | normals
      · rcases hnormals with ⟨hc, hn1⟩ | ⟨hc, hn1⟩ <;>
          (simp only [Sat.after_iff, Sat.mk_iff, Sat.pure_iff, Sat.pure_bind_iff, Sat.emit_iff,
            Sat.emit_bind_iff, Sat.throwValue_iff, Sat.throwValue_bind_iff, Sat.call_iff,
            Sat.call_bind_iff, Sat.deref_bind_iff, Sat.setStaticSurface_bind_iff,
            Sat.bind_bind_iff, Sat.ite_iff, Sat.ite_bind_iff, Result.after_mk, reduceCtorEq,
            String.reduceEq, false_implies, implies_true, and_true, true_and, not_true_eq_false,
            not_false_eq_true, forall_const, true_implies, Except.ok.injEq, Option.some.injEq,
            forall_eq', hPCL, hsup, hs, hc, hn1, hgrid, hdist, hrec, hmesh, hfn, hfinal]
           simp +contextual [hd.1, hd.2, hmesh, hfn, hfinal])
      · by_cases hflag : self.config.optimizePlanes = true
        · rcases hgrow : lvr.iterativePlanarClusterGrowing mesh normals
              self.config.normalThreshold self.config.planeIterations self.config.minPlaneSize
            with t | ⟨clusterSet, mesh1, normals1⟩
          · rcases hnormals with ⟨hc, hn1⟩ | ⟨hc, hn1⟩ <;>
              (simp only [Sat.after_iff, Sat.mk_iff, Sat.pure_iff, Sat.pure_bind_iff,
                Sat.emit_iff, Sat.emit_bind_iff, Sat.throwValue_iff, Sat.throwValue_bind_iff,
                Sat.call_iff, Sat.call_bind_iff, Sat.deref_bind_iff,
                Sat.setStaticSurface_bind_iff, Sat.bind_bind_iff, Sat.ite_iff, Sat.ite_bind_iff,
                Result.after_mk, reduceCtorEq, String.reduceEq, false_implies, implies_true,
                and_true, true_and, not_true_eq_false, not_false_eq_true, forall_const,
                true_implies, Except.ok.injEq, Option.some.injEq, forall_eq', hPCL, hsup, hs, hc,
                hn1, hgrid, hdist, hrec, hmesh, hfn, hflag, hgrow]
               simp +contextual [hd.1, hd.2, hmesh, hfn, hflag, hgrow])
          · have hfinal1 : ∀ vertexNormals,
                lvr.finalizeApply vertexNormals mesh1 = Except.error emptyMeshError :=
              hempty mesh1 ((hclu hflag _ _ _ _ _ _ _ _ hgrow).trans hzero)
            rcases hnormals with ⟨hc, hn1⟩ | ⟨hc, hn1⟩ <;>
              (simp only [Sat.after_iff, Sat.mk_iff, Sat.pure_iff, Sat.pure_bind_iff,
                Sat.emit_iff, Sat.emit_bind_iff, Sat.throwValue_iff, Sat.throwValue_bind_iff,
                Sat.call_iff, Sat.call_bind_iff, Sat.deref_bind_iff,
                Sat.setStaticSurface_bind_iff, Sat.bind_bind_iff, Sat.ite_iff, Sat.ite_bind_iff,
                Result.after_mk, reduceCtorEq, String.reduceEq, false_implies, implies_true,
                and_true, true_and, not_true_eq_false, not_false_eq_true, forall_const,
                true_implies, Except.ok.injEq, Option.some.injEq, forall_eq', hPCL, hsup, hs, hc,
                hn1, hgrid, hdist, hrec, hmesh, hfn, hflag, hgrow, hfinal1]
               simp +contextual [hd.1, hd.2, hmesh, hfn, hflag, hgrow, hfinal1])
        · rcases hnormals with ⟨hc, hn1⟩ | ⟨hc, hn1⟩ <;>
            (simp only [Sat.after_iff, Sat.mk_iff, Sat.pure_iff, Sat.pure_bind_iff, Sat.emit_iff,
              Sat.emit_bind_iff, Sat.throwValue_iff, Sat.throwValue_bind_iff, Sat.call_iff,
              Sat.call_bind_iff, Sat.deref_bind_iff, Sat.setStaticSurface_bind_iff,
              Sat.bind_bind_iff, Sat.ite_iff, Sat.ite_bind_iff, Result.after_mk, reduceCtorEq,
              String.reduceEq, false_implies, implies_true, and_true, true_and, not_true_eq_false,
              not_false_eq_true, forall_const, true_implies, Except.ok.injEq, Option.some.injEq,
              forall_eq', hPCL, hsup, hs, hc, hn1, hgrid, hdist, hrec, hmesh, hfn, hflag, hfinal]
             simp +contextual [hd.1, hd.2, hmesh, hfn, hflag, hfinal])
    · show Sat (fun r => r.outcome = Outcome.threw emptyMeshError ∧
        Event.finalizeApply vertexNormals mesh ∈ r.events) (createMesh self lvr pb mb w)
      unfold createMesh
      rcases hnormals with ⟨hc, hn1⟩ | ⟨hc, hn1⟩ <;>
        (simp only [Sat.after_iff, Sat.mk_iff, Sat.pure_iff, Sat.pure_bind_iff, Sat.emit_iff,
          Sat.emit_bind_iff, Sat.throwValue_iff, Sat.throwValue_bind_iff, Sat.call_iff,
          Sat.call_bind_iff, Sat.deref_bind_iff, Sat.setStaticSurface_bind_iff, Sat.bind_bind_iff,
          Sat.ite_iff, Sat.ite_bind_iff, Result.after_mk, reduceCtorEq, String.reduceEq,
          false_implies, implies_true, and_true, true_and, not_true_eq_false, not_false_eq_true,
          forall_const, true_implies, Except.ok.injEq, Option.some.injEq, forall_eq', hPCL, hsup,
          hs, hc, hn1, hgrid, hdist, hrec, hmesh, hfn, hflag, hgrow, hvn, hfinal]
         simp +contextual [hd.1, hd.2, hmesh, hfn, hflag, hgrow, hvn, hfinal])
    · have hfinal1 : ∀ vertexNormals,
          lvr.finalizeApply vertexNormals mesh1 = Except.error emptyMeshError :=
        hempty mesh1 ((hclu hflag _ _ _ _ _ _ _ _ hgrow).trans hzero)
      show Sat (fun r => r.outcome = Outcome.threw emptyMeshError ∧
        Event.finalizeApply vertexNormals mesh1 ∈ r.events) (createMesh self lvr pb mb w)
      unfold createMesh
      rcases hnormals with ⟨hc, hn1⟩ | ⟨hc, hn1⟩ <;>
        (simp only [Sat.after_iff, Sat.mk_iff, Sat.pure_iff, Sat.pure_bind_iff, Sat.emit_iff,
          Sat.emit_bind_iff, Sat.throwValue_iff, Sat.throwValue_bind_iff, Sat.call_iff,
          Sat.call_bind_iff, Sat.deref_bind_iff, Sat.setStaticSurface_bind_iff, Sat.bind_bind_iff,
          Sat.ite_iff, Sat.ite_bind_iff, Result.after_mk, reduceCtorEq, String.reduceEq,
          false_implies, implies_true, and_true, true_and, not_true_eq_false, not_false_eq_true,
          forall_const, true_implies, Except.ok.injEq, Option.some.injEq, forall_eq', hPCL, hsup,
          hs, hc, hn1, hgrid, hdist, hrec, hmesh, hfn, hflag, hgrow, hvn, hfinal1]
         simp +contextual [hd.1, hd.2, hmesh, hfn, hflag, hgrow, hvn, hfinal1])

/-- C6, on two samples, with the library that meets the contracts: on a cloud
of three points extraction yields a mesh with zero faces and `createMesh` ends
by the `EmptyMeshError` of the finalizer, with the single-pass and with the
iterative cluster growing. -/
theorem createMesh_zero_faces_witness :
    MeshFinalizerContract specLvr (Thrown.stdException "EmptyMeshError") ∧
    ClusterizerContract specLvr ∧
    createMesh sampleNode specLvr 3 7 (World.initial natTypes) =
      { outcome := Outcome.threw (Thrown.stdException "EmptyMeshError"),
        events :=
          [Event.newAdaptiveKSearchSurface 3 "STANN" 10 10 5 false, Event.setKd 5,
           Event.setKi 10, Event.setKn 10, Event.calculateSurfaceNormals 3,
           Event.newPointsetGrid 10 3 3 true true, Event.calcDistanceValues 0,
           Event.newFastReconstruction 0, Event.getMesh 0 0, Event.calcFaceNormals 0,
           Event.planarClusterGrowing 0 0 85, Event.calcVertexNormals 0 0 3,
           Event.finalizeApply 0 0],
        world := { m_surface := some 3 } } ∧
    specLvr.getMesh 0 specLvr.newHalfEdgeMesh = Except.ok 0 ∧
    specLvr.numFaces 0 = 0 ∧
    ((createMesh sampleNode specLvr 3 7 (World.initial natTypes)).outcome =
        Outcome.threw (Thrown.stdException "EmptyMeshError") ∧
      Event.finalizeApply 0 0 ∈
        (createMesh sampleNode specLvr 3 7 (World.initial natTypes)).events) ∧
    ((createMesh optimizePlanesNode specLvr 3 7 (World.initial natTypes)).outcome =
        Outcome.threw (Thrown.stdException "EmptyMeshError") ∧
      Event.finalizeApply 0 0 ∈
        (createMesh optimizePlanesNode specLvr 3 7 (World.initial natTypes)).events) ∧
    (∀ buffer, (createMesh sampleNode specLvr 5 7 (World.initial natTypes)).outcome =
        Outcome.returned (true, buffer) → specLvr.bufferNumFaces buffer ≠ 0) :=
  ⟨specLvr_meshFinalizerContract, specLvr_clusterizerContract, rfl, rfl, rfl,
    (((createMesh_zero_faces sampleNode specLvr 3 7 (World.initial natTypes)
      (Thrown.stdException "EmptyMeshError") specLvr_meshFinalizerContract
      (fun _ => specLvr_clusterizerContract)).2 3 3 0 0 0 0 (by decide) rfl rfl (by decide)
      rfl rfl rfl rfl rfl).2 0 rfl).1 rfl 1 0 rfl rfl,
    (((createMesh_zero_faces optimizePlanesNode specLvr 3 7 (World.initial natTypes)
      (Thrown.stdException "EmptyMeshError") specLvr_meshFinalizerContract
      (fun _ => specLvr_clusterizerContract)).2 3 3 0 0 0 0 (by decide) rfl rfl (by decide)
      rfl rfl rfl rfl rfl).2 0 rfl).2 rfl 1 0 0 0 rfl rfl,
    (createMesh_zero_faces sampleNode specLvr 5 7 (World.initial natTypes)
      (Thrown.stdException "EmptyMeshError") specLvr_meshFinalizerContract
      (fun _ => specLvr_clusterizerContract)).1⟩

/-! ## The callbacks -/

/-- C1, refuted on the code: whenever `createMesh(goal->cloud, result.mesh)`
returns false, `reconstruct` goes on to `as_.setSucceeded(result, "Published
mesh.")`, with the mesh message as the failed call left it: the returned flag
is not looked at. -/
theorem reconstruct_succeeds_on_false (self : Reconstruction T) (lvr : Lvr T)
    (goal : ReconstructGoal T) (w w1 : World T) (mesh : TriangleMeshStamped T)
    (l : List (Event T))
    (h : createMeshMsg self lvr goal.cloud (newTriangleMeshStamped lvr) w =
      { outcome := Outcome.returned (false, mesh), events := l, world := w1 }) :
    reconstruct self lvr goal w =
      { outcome := Outcome.returned (),
        events := l ++ [Event.setSucceeded { mesh := mesh } "Published mesh."],
        world := w1 } := by
  unfold reconstruct
  apply Run.tryCatchStd_of_returned
  rw [Run.bind_of_returned _ _ _ _ _ _ h]
  rfl

/-- C1, at the failing input: the method name KDTREE is unknown, `createMesh`
returns false, and the action is set succeeded with an empty mesh. -/
theorem reconstruct_succeeds_on_false_witness :
    createMeshMsg unknownMethodNode okLvr (sampleCloud 5) (newTriangleMeshStamped okLvr)
        (World.initial natTypes) =
      { outcome := Outcome.returned (false, newTriangleMeshStamped okLvr),
        events :=
          [Event.fromPointCloud2ToPointBuffer (sampleCloud 5),
           Event.rosError "Unable to create PointCloudManager.",
           Event.rosError "Unknown option 'KDTREE'.",
           Event.rosError "Available PCMs are: ",
           Event.rosError "STANN, STANN_RANSAC, PCL",
           Event.rosError "Reconstruction failed!"],
        world := World.initial natTypes } ∧
    reconstruct unknownMethodNode okLvr { cloud := sampleCloud 5 } (World.initial natTypes) =
      { outcome := Outcome.returned (),
        events :=
          [Event.fromPointCloud2ToPointBuffer (sampleCloud 5),
           Event.rosError "Unable to create PointCloudManager.",
           Event.rosError "Unknown option 'KDTREE'.",
           Event.rosError "Available PCMs are: ",
           Event.rosError "STANN, STANN_RANSAC, PCL",
           Event.rosError "Reconstruction failed!"] ++
          [Event.setSucceeded { mesh := newTriangleMeshStamped okLvr } "Published mesh."],
        world := World.initial natTypes } :=
  ⟨rfl,
    reconstruct_succeeds_on_false unknownMethodNode okLvr { cloud := sampleCloud 5 }
      (World.initial natTypes) (World.initial natTypes) (newTriangleMeshStamped okLvr) _ rfl⟩

/-- C2, refuted on the code: whenever `createMesh(*cloud, mesh)` returns false,
`pointCloudCallback` goes on to publish the mesh message as the failed call
left it: the returned flag is not looked at. -/
theorem pointCloudCallback_publishes_on_false (self : Reconstruction T) (lvr : Lvr T)
    (cloud : PointCloud2 T) (w w1 : World T) (mesh : TriangleMeshStamped T)
    (l : List (Event T))
    (h : createMeshMsg self lvr cloud (newTriangleMeshStamped lvr) w =
      { outcome := Outcome.returned (false, mesh), events := l, world := w1 }) :
    pointCloudCallback self lvr cloud w =
      { outcome := Outcome.returned (), events := l ++ [Event.publish mesh], world := w1 } := by
  unfold pointCloudCallback
  rw [Run.bind_of_returned _ _ _ _ _ _ h]
  rfl

/-- C2, at the failing input: the method name KDTREE is unknown, `createMesh`
returns false, and an empty mesh message is published. -/
theorem pointCloudCallback_publishes_on_false_witness :
    createMeshMsg unknownMethodNode okLvr (sampleCloud 5) (newTriangleMeshStamped okLvr)
        (World.initial natTypes) =
      { outcome := Outcome.returned (false, newTriangleMeshStamped okLvr),
        events :=
          [Event.fromPointCloud2ToPointBuffer (sampleCloud 5),
           Event.rosError "Unable to create PointCloudManager.",
           Event.rosError "Unknown option 'KDTREE'.",
           Event.rosError "Available PCMs are: ",
           Event.rosError "STANN, STANN_RANSAC, PCL",
           Event.rosError "Reconstruction failed!"],
        world := World.initial natTypes } ∧
    pointCloudCallback unknownMethodNode okLvr (sampleCloud 5) (World.initial natTypes) =
      { outcome := Outcome.returned (),
        events :=
          [Event.fromPointCloud2ToPointBuffer (sampleCloud 5),
           Event.rosError "Unable to create PointCloudManager.",
           Event.rosError "Unknown option 'KDTREE'.",
           Event.rosError "Available PCMs are: ",
           Event.rosError "STANN, STANN_RANSAC, PCL",
           Event.rosError "Reconstruction failed!"] ++
          [Event.publish (newTriangleMeshStamped okLvr)],
        world := World.initial natTypes } :=
  ⟨rfl,
    pointCloudCallback_publishes_on_false unknownMethodNode okLvr (sampleCloud 5)
      (World.initial natTypes) (World.initial natTypes) (newTriangleMeshStamped okLvr) _ rfl⟩

/-- C3, refuted on the code: with `config.pcm` equal to PCL and a cloud that
converts, the string literal thrown at line 159 is not a `std::exception`; it
passes the handler of `reconstruct` and leaves it, and the action gets no
terminal result, neither succeeded nor aborted. -/
theorem reconstruct_pcl_escapes (self : Reconstruction T) (lvr : Lvr T)
    (goal : ReconstructGoal T) (w : World T) (pb : T.PointBuffer)
    (hpcm : self.config.pcm = "PCL")
    (hconv : lvr.fromPointCloud2ToPointBuffer goal.cloud lvr.newPointBuffer =
      Except.ok (true, pb)) :
    reconstruct self lvr goal w =
      { outcome := Outcome.threw (Thrown.cString "PCL not supported right meow!"),
        events := [Event.fromPointCloud2ToPointBuffer goal.cloud],
        world := w } := by
  unfold reconstruct tryCatchStd createMeshMsg createMesh
  simp [hpcm, hconv, Run.bind_assoc_apply]

/-- C3, at the failing input: the method name PCL. -/
theorem reconstruct_pcl_escapes_witness :
    pclNode.config.pcm = "PCL" ∧
    okLvr.fromPointCloud2ToPointBuffer (sampleCloud 5) okLvr.newPointBuffer =
      Except.ok (true, 5) ∧
    reconstruct pclNode okLvr { cloud := sampleCloud 5 } (World.initial natTypes) =
      { outcome := Outcome.threw (Thrown.cString "PCL not supported right meow!"),
        events := [Event.fromPointCloud2ToPointBuffer (sampleCloud 5)],
        world := World.initial natTypes } :=
  ⟨rfl, rfl,
    reconstruct_pcl_escapes pclNode okLvr { cloud := sampleCloud 5 } (World.initial natTypes)
      5 rfl rfl⟩

/-! ## The extractor and the listed method names -/

/-- C11, refuted on the code: with a supported point-surface method, a surface
that is built and the decomposition name MC or SF, `createMesh` constructs no
extractor: it never calls `getMesh` on one, and unless normal estimation threw
before, it ends at line 356 by dereferencing the null pointer
`reconstruction`. -/
theorem createMesh_null_extractor (self : Reconstruction T) (lvr : Lvr T)
    (pb : T.PointBuffer) (mb : T.MeshBuffer) (w : World T) (surface : T.Surface)
    (hpcm : self.config.pcm ∈ ["STANN", "FLANN", "NABO", "NANOFLANN"])
    (hs : lvr.newAdaptiveKSearchSurface pb self.config.pcm self.config.kn self.config.ki
      self.config.kd self.config.ransac = Except.ok surface)
    (hd : self.config.decomposition = "MC" ∨ self.config.decomposition = "SF") :
    (∀ extractor mesh, Event.getMesh extractor mesh ∉ (createMesh self lvr pb mb w).events) ∧
    ((createMesh self lvr pb mb w).outcome = Outcome.nullDereference ∨
      ∃ t, lvr.calculateSurfaceNormals
          (lvr.setKn (lvr.setKi (lvr.setKd surface self.config.kd) self.config.ki)
            self.config.kn) = Except.error t ∧
        (createMesh self lvr pb mb w).outcome = Outcome.threw t) ∧
    (createMesh self lvr pb mb w).world = w := by
  have hsup : self.config.pcm = "STANN" ∨ self.config.pcm = "FLANN" ∨
      self.config.pcm = "NABO" ∨ self.config.pcm = "NANOFLANN" := by
    simpa using hpcm
  have hPCL : ¬ self.config.pcm = "PCL" := by
    rcases hsup with h | h | h | h <;> simp [h]
  unfold createMesh
  simp only [if_neg hPCL, if_pos hsup, hs, Run.call_ok_bind_apply, Run.emit_bind_apply]
  by_cases hc : (!lvr.hasNormals pb || self.config.recalcNormals) = true
  · simp only [if_pos hc]
    rcases hcalc : lvr.calculateSurfaceNormals
        (lvr.setKn (lvr.setKi (lvr.setKd surface self.config.kd) self.config.ki)
          self.config.kn) with t | s1
    · simp
    · rcases hd with h | h <;> simp [h, Run.bind_assoc_apply]
  · simp only [if_neg hc]
    rcases hd with h | h <;> simp [h, Run.bind_assoc_apply]

/-- C11, at the failing inputs: the decomposition name MC, and likewise SF. -/
theorem createMesh_null_extractor_witness :
    mcNode.config.pcm ∈ ["STANN", "FLANN", "NABO", "NANOFLANN"] ∧
    okLvr.newAdaptiveKSearchSurface 5 mcNode.config.pcm mcNode.config.kn mcNode.config.ki
      mcNode.config.kd mcNode.config.ransac = Except.ok 5 ∧
    (mcNode.config.decomposition = "MC" ∨ mcNode.config.decomposition = "SF") ∧
    createMesh mcNode okLvr 5 7 (World.initial natTypes) =
      { outcome := Outcome.nullDereference,
        events :=
          [Event.newAdaptiveKSearchSurface 5 "STANN" 10 10 5 false, Event.setKd 5,
           Event.setKi 10, Event.setKn 10, Event.calculateSurfaceNormals 5],
        world := World.initial natTypes } ∧
    ((createMesh mcNode okLvr 5 7 (World.initial natTypes)).outcome = Outcome.nullDereference ∨
      ∃ t, okLvr.calculateSurfaceNormals
          (okLvr.setKn (okLvr.setKi (okLvr.setKd 5 mcNode.config.kd) mcNode.config.ki)
            mcNode.config.kn) = Except.error t ∧
        (createMesh mcNode okLvr 5 7 (World.initial natTypes)).outcome = Outcome.threw t) ∧
    createMesh sfNode okLvr 5 7 (World.initial natTypes) =
      { outcome := Outcome.nullDereference,
        events :=
          [Event.newAdaptiveKSearchSurface 5 "STANN" 10 10 5 false, Event.setKd 5,
           Event.setKi 10, Event.setKn 10, Event.calculateSurfaceNormals 5],
        world := World.initial natTypes } ∧
    (∀ extractor mesh, Event.getMesh extractor mesh ∉
      (createMesh sfNode okLvr 5 7 (World.initial natTypes)).events) :=
  ⟨by decide, rfl, Or.inl rfl, rfl,
    (createMesh_null_extractor mcNode okLvr 5 7 (World.initial natTypes) 5 (by decide) rfl
      (Or.inl rfl)).2.1,
    rfl,
    (createMesh_null_extractor sfNode okLvr 5 7 (World.initial natTypes) 5 (by decide) rfl
      (Or.inr rfl)).1⟩

/-- C14, refuted on the code: of the three names the error message of lines
180-183 lists as available, STANN_RANSAC takes the unknown-option path itself
(`createMesh` returns false after the four error lines, the last of which
lists it) and PCL makes `createMesh` throw; in neither case is a surface
constructed. -/
theorem createMesh_listed_methods_rejected (self : Reconstruction T) (lvr : Lvr T)
    (pb : T.PointBuffer) (mb : T.MeshBuffer) (w : World T) :
    (self.config.pcm = "STANN_RANSAC" →
      createMesh self lvr pb mb w =
        { outcome := Outcome.returned (false, mb),
          events :=
            [Event.rosError "Unable to create PointCloudManager.",
             Event.rosError "Unknown option 'STANN_RANSAC'.",
             Event.rosError "Available PCMs are: ",
             Event.rosError "STANN, STANN_RANSAC, PCL"],
          world := w }) ∧
    (self.config.pcm = "PCL" →
      createMesh self lvr pb mb w =
        { outcome := Outcome.threw (Thrown.cString "PCL not supported right meow!"),
          events := [],
          world := w }) := by
  constructor
  · intro h
    unfold createMesh
    simp [h]
  · intro h
    unfold createMesh
    simp [h]

/-- C14, at the failing inputs: the names STANN_RANSAC and PCL. -/
theorem createMesh_listed_methods_rejected_witness :
    stannRansacNode.config.pcm = "STANN_RANSAC" ∧
    createMesh stannRansacNode okLvr 5 7 (World.initial natTypes) =
      { outcome := Outcome.returned (false, 7),
        events :=
          [Event.rosError "Unable to create PointCloudManager.",
           Event.rosError "Unknown option 'STANN_RANSAC'.",
           Event.rosError "Available PCMs are: ",
           Event.rosError "STANN, STANN_RANSAC, PCL"],
        world := World.initial natTypes } ∧
    pclNode.config.pcm = "PCL" ∧
    createMesh pclNode okLvr 5 7 (World.initial natTypes) =
      { outcome := Outcome.threw (Thrown.cString "PCL not supported right meow!"),
        events := [],
        world := World.initial natTypes } :=
  ⟨rfl,
    (createMesh_listed_methods_rejected stannRansacNode okLvr 5 7
      (World.initial natTypes)).1 rfl,
    rfl,
    (createMesh_listed_methods_rejected pclNode okLvr 5 7 (World.initial natTypes)).2 rfl⟩

/-! ## The static -/

theorem staticKept_after_quiet {α : Type} (w : World T) (l : List (Event T)) (r : Result T α)
    (hl : ∀ e ∈ l, e.isNewPointsetGrid = false) :
    (r.after l).StaticKept w ↔ r.StaticKept w := by
  unfold Result.StaticKept
  simp only [Result.after_events, Result.after_world, List.mem_append]
  constructor
  · rintro ⟨h1, h2⟩
    refine ⟨fun a b c d e hm => h1 a b c d e (Or.inr hm), fun hq => h2 ?_⟩
    rintro e (he | he)
    · exact hl e he
    · exact hq e he
  · rintro ⟨h1, h2⟩
    refine ⟨?_, fun hq => h2 (fun e he => hq e (Or.inr he))⟩
    rintro a b c d e (hm | hm)
    · have := hl _ hm
      simp [Event.isNewPointsetGrid] at this
    · exact h1 a b c d e hm

theorem staticKept_after_grid {α : Type} (w : World T) (r : Result T α)
    (resolution : T.Float32) (surface : T.Surface) (boundingBox : T.BoundingBox)
    (useVoxelsize extrude : Bool) :
    (r.after [Event.newPointsetGrid resolution surface boundingBox useVoxelsize
      extrude]).StaticKept w ↔ r.StaticSet surface := by
  unfold Result.StaticKept Result.StaticSet
  simp only [Result.after_events, Result.after_world, List.mem_append, List.mem_singleton]
  constructor
  · rintro ⟨h1, -⟩
    have hw := h1 resolution surface boundingBox useVoxelsize extrude (Or.inl rfl)
    refine ⟨hw, fun a b c d e hm => ?_⟩
    have := h1 a b c d e (Or.inr hm)
    rw [hw] at this
    simpa using this.symm
  · rintro ⟨hw, h1⟩
    refine ⟨?_, fun hq => ?_⟩
    · rintro a b c d e (hm | hm)
      · simp only [Event.newPointsetGrid.injEq] at hm
        rw [hw, hm.2.1]
      · rw [hw, h1 a b c d e hm]
    · have := hq _ (Or.inl rfl)
      simp [Event.isNewPointsetGrid] at this

theorem staticSet_after_quiet {α : Type} (surface0 : T.Surface) (l : List (Event T))
    (r : Result T α) (hl : ∀ e ∈ l, e.isNewPointsetGrid = false) :
    (r.after l).StaticSet surface0 ↔ r.StaticSet surface0 := by
  unfold Result.StaticSet
  simp only [Result.after_events, Result.after_world, List.mem_append]
  constructor
  · rintro ⟨hw, h1⟩
    exact ⟨hw, fun a b c d e hm => h1 a b c d e (Or.inr hm)⟩
  · rintro ⟨hw, h1⟩
    refine ⟨hw, ?_⟩
    rintro a b c d e (hm | hm)
    · have := hl _ hm
      simp [Event.isNewPointsetGrid] at this
    · exact h1 a b c d e hm

theorem staticKept_mk_quiet {α : Type} (w w1 : World T) (o : Outcome α) (l : List (Event T))
    (hl : ∀ e ∈ l, e.isNewPointsetGrid = false) :
    Result.StaticKept w { outcome := o, events := l, world := w1 } ↔ w1 = w := by
  have h := staticKept_after_quiet w l { outcome := o, events := [], world := w1 } hl
  simp only [Result.after_mk, List.append_nil] at h
  rw [h]
  simp [Result.StaticKept]

theorem staticKept_mk_grid {α : Type} (w w1 : World T) (o : Outcome α)
    (resolution : T.Float32) (surface : T.Surface) (boundingBox : T.BoundingBox)
    (useVoxelsize extrude : Bool) :
    Result.StaticKept w (Result.mk o
      [Event.newPointsetGrid resolution surface boundingBox useVoxelsize extrude] w1) ↔
      w1 = { m_surface := some surface } := by
  have h := staticKept_after_grid w { outcome := o, events := [], world := w1 }
    resolution surface boundingBox useVoxelsize extrude
  simp only [Result.after_mk, List.append_nil] at h
  rw [h]
  simp [Result.StaticSet]

theorem staticSet_mk_quiet {α : Type} (surface0 : T.Surface) (w1 : World T) (o : Outcome α)
    (l : List (Event T)) (hl : ∀ e ∈ l, e.isNewPointsetGrid = false) :
    Result.StaticSet surface0 { outcome := o, events := l, world := w1 } ↔
      w1 = { m_surface := some surface0 } := by
  have h := staticSet_after_quiet surface0 l { outcome := o, events := [], world := w1 } hl
  simp only [Result.after_mk, List.append_nil] at h
  rw [h]
  simp [Result.StaticSet]

/-- However `createMesh` ends, the static is as `Result.StaticKept` says. -/
theorem createMesh_staticKept (self : Reconstruction T) (lvr : Lvr T)
    (pb : T.PointBuffer) (mb : T.MeshBuffer) (w : World T) :
    (createMesh self lvr pb mb w).StaticKept w := by
  show Sat (Result.StaticKept w) (createMesh self lvr pb mb w)
  unfold createMesh
  simp only [staticKept_after_quiet, staticKept_after_grid, staticSet_after_quiet,
    staticKept_mk_quiet, staticKept_mk_grid, staticSet_mk_quiet,
    Sat.after_iff, Sat.mk_iff, Sat.pure_iff, Sat.pure_bind_iff,
    Sat.emit_iff, Sat.emit_bind_iff, Sat.throwValue_iff, Sat.throwValue_bind_iff,
    Sat.call_iff, Sat.call_bind_iff, Sat.deref_bind_iff, Sat.setStaticSurface_bind_iff,
    Sat.bind_bind_iff, Sat.ite_iff, Sat.ite_bind_iff, Result.after_mk, reduceCtorEq,
    String.reduceEq, List.forall_mem_singleton, List.not_mem_nil, Event.isNewPointsetGrid,
    false_implies, implies_true, and_true, true_and, not_true_eq_false,
    not_false_eq_true, forall_const, true_implies, and_self]

/-- The static after the sample run is not the null pointer it was before. -/
theorem createMesh_sample_world :
    (createMesh sampleNode okLvr 5 0 (World.initial natTypes)).world ≠
      World.initial natTypes := by
  intro h
  have h2 := congrArg World.m_surface h
  rw [createMesh_sample] at h2
  simp [World.initial] at h2

/-- C12, refuted as stated: the sample run leaves the static
`lvr2::BilinearFastBox<Vec>::m_surface`, null before the call, pointing to the
surface. -/
theorem createMesh_static_counterexample :
    (World.initial natTypes).m_surface = none ∧
    (createMesh sampleNode okLvr 5 0 (World.initial natTypes)).world.m_surface = some 5 ∧
    (createMesh sampleNode okLvr 5 0 (World.initial natTypes)).world ≠
      World.initial natTypes :=
  ⟨rfl, rfl, createMesh_sample_world⟩

/-- C12, amended: `createMesh` writes one process-wide variable, the static
`lvr2::BilinearFastBox<Vec>::m_surface`, and only on the way to the grid: a run
that builds the grid leaves the static pointing to the surface of the grid, and
a run that does not build it leaves the process-wide state as it was.  The
configuration reaches the library through the arguments of the calls, as
listed in `CreateMeshEvent`. -/
theorem createMesh_static (self : Reconstruction T) (lvr : Lvr T)
    (pb : T.PointBuffer) (mb : T.MeshBuffer) (w : World T) :
    (∀ resolution surface boundingBox useVoxelsize extrude,
      Event.newPointsetGrid resolution surface boundingBox useVoxelsize extrude ∈
          (createMesh self lvr pb mb w).events →
        (createMesh self lvr pb mb w).world = { m_surface := some surface }) ∧
    ((∀ e ∈ (createMesh self lvr pb mb w).events, e.isNewPointsetGrid = false) →
      (createMesh self lvr pb mb w).world = w) ∧
    (createMesh self lvr pb mb w).AllEvents (CreateMeshEvent self.config lvr pb) :=
  ⟨(createMesh_staticKept self lvr pb mb w).1, (createMesh_staticKept self lvr pb mb w).2,
    createMesh_events self lvr pb mb w⟩

/-- C12 amended, on the sample: the grid is built on the surface 5. -/
theorem createMesh_static_witness :
    Event.newPointsetGrid 10 5 5 true true ∈
      (createMesh sampleNode okLvr 5 0 (World.initial natTypes)).events ∧
    (createMesh sampleNode okLvr 5 0 (World.initial natTypes)).world =
      { m_surface := some 5 } :=
  have hmem : Event.newPointsetGrid 10 5 5 true true ∈
      (createMesh sampleNode okLvr 5 0 (World.initial natTypes)).events := by
    rw [createMesh_sample]
    simp
  ⟨hmem, (createMesh_static sampleNode okLvr 5 0 (World.initial natTypes)).1 10 5 5 true true
    hmem⟩

/-! ## The message overload -/

/-- C13: `createMesh(cloud, mesh_msg)` runs the point-cloud conversion, the
reconstruction and the mesh-to-message conversion in that order and stops at
the first that returns false, returning false itself with the header of
`mesh_msg` as it was and no later step attempted; when all three return true
it returns true with `frame_id` and `stamp` of the header set to those of the
cloud; and it returns true in no other case. -/
theorem createMeshMsg_returns (self : Reconstruction T) (lvr : Lvr T)
    (cloud : PointCloud2 T) (mesh_msg : TriangleMeshStamped T) (w : World T) :
    (∀ pb, lvr.fromPointCloud2ToPointBuffer cloud lvr.newPointBuffer = Except.ok (false, pb) →
      createMeshMsg self lvr cloud mesh_msg w =
        { outcome := Outcome.returned (false, mesh_msg),
          events :=
            [Event.fromPointCloud2ToPointBuffer cloud,
             Event.rosError ("Could not convert point cloud from " ++
               "\"sensor_msgs::PointCloud2\" to \"lvr::PointBuffer\"!")],
          world := w }) ∧
    (∀ pb mb l w1,
      lvr.fromPointCloud2ToPointBuffer cloud lvr.newPointBuffer = Except.ok (true, pb) →
      createMesh self lvr pb lvr.newMeshBuffer w =
        { outcome := Outcome.returned (false, mb), events := l, world := w1 } →
      createMeshMsg self lvr cloud mesh_msg w =
        { outcome := Outcome.returned (false, mesh_msg),
          events := Event.fromPointCloud2ToPointBuffer cloud :: l ++
            [Event.rosError "Reconstruction failed!"],
          world := w1 }) ∧
    (∀ pb mb l w1 m,
      lvr.fromPointCloud2ToPointBuffer cloud lvr.newPointBuffer = Except.ok (true, pb) →
      createMesh self lvr pb lvr.newMeshBuffer w =
        { outcome := Outcome.returned (true, mb), events := l, world := w1 } →
      lvr.fromMeshBufferToTriangleMesh mb mesh_msg.mesh = Except.ok (false, m) →
      createMeshMsg self lvr cloud mesh_msg w =
        { outcome := Outcome.returned (false, { header := mesh_msg.header, mesh := m }),
          events := Event.fromPointCloud2ToPointBuffer cloud :: l ++
            [Event.fromMeshBufferToTriangleMesh mb mesh_msg.mesh,
             Event.rosError ("Could not convert point cloud from " ++
               "\"lvr::MeshBuffer\" to \"mesh_msgs::TriangleMeshStamped\"!")],
          world := w1 }) ∧
    (∀ pb mb l w1 m,
      lvr.fromPointCloud2ToPointBuffer cloud lvr.newPointBuffer = Except.ok (true, pb) →
      createMesh self lvr pb lvr.newMeshBuffer w =
        { outcome := Outcome.returned (true, mb), events := l, world := w1 } →
      lvr.fromMeshBufferToTriangleMesh mb mesh_msg.mesh = Except.ok (true, m) →
      createMeshMsg self lvr cloud mesh_msg w =
        { outcome := Outcome.returned (true,
            { header := { frame_id := cloud.header.frame_id, stamp := cloud.header.stamp },
              mesh := m }),
          events := Event.fromPointCloud2ToPointBuffer cloud :: l ++
            [Event.fromMeshBufferToTriangleMesh mb mesh_msg.mesh],
          world := w1 }) ∧
    (∀ msg, (createMeshMsg self lvr cloud mesh_msg w).outcome = Outcome.returned (true, msg) →
      (∃ pb mb l w1 m,
        lvr.fromPointCloud2ToPointBuffer cloud lvr.newPointBuffer = Except.ok (true, pb) ∧
        createMesh self lvr pb lvr.newMeshBuffer w =
          { outcome := Outcome.returned (true, mb), events := l, world := w1 } ∧
        lvr.fromMeshBufferToTriangleMesh mb mesh_msg.mesh = Except.ok (true, m)) ∧
      msg.header.frame_id = cloud.header.frame_id ∧ msg.header.stamp = cloud.header.stamp) ∧
    (∀ msg, (createMeshMsg self lvr cloud mesh_msg w).outcome = Outcome.returned (false, msg) →
      msg.header = mesh_msg.header) := by
  refine ⟨?_, ?_, ?_, ?_, ?_⟩
  · intro pb hconv
    unfold createMeshMsg
    simp [hconv]
  · intro pb mb l w1 hconv hcm
    unfold createMeshMsg
    simp only [hconv, Run.call_ok_bind_apply, Bool.not_true, Bool.false_eq_true, if_false]
    rw [Run.bind_of_returned _ _ _ _ _ _ hcm]
    simp
  · intro pb mb l w1 m hconv hcm hconv2
    unfold createMeshMsg
    simp only [hconv, Run.call_ok_bind_apply, Bool.not_true, Bool.false_eq_true, if_false]
    rw [Run.bind_of_returned _ _ _ _ _ _ hcm]
    simp [hconv2]
  · intro pb mb l w1 m hconv hcm hconv2
    unfold createMeshMsg
    simp only [hconv, Run.call_ok_bind_apply, Bool.not_true, Bool.false_eq_true, if_false]
    rw [Run.bind_of_returned _ _ _ _ _ _ hcm]
    simp [hconv2]
  unfold createMeshMsg
  rcases hconv : lvr.fromPointCloud2ToPointBuffer cloud lvr.newPointBuffer with t | ⟨b, pb⟩
  · simp
  cases b
  · simp
  simp only [Run.call_ok_bind_apply, Bool.not_true, Bool.false_eq_true, if_false]
  rcases hcm : createMesh self lvr pb lvr.newMeshBuffer w with ⟨o, l, w1⟩
  cases o with
  | threw t =>
    rw [Run.bind_of_threw _ _ _ _ _ _ hcm]
    simp
  | nullDereference =>
    rw [Run.bind_of_nullDereference _ _ _ _ _ hcm]
    simp
  | returned a =>
    rw [Run.bind_of_returned _ _ _ _ _ _ hcm]
    rcases a with ⟨b2, mb⟩
    cases b2
    · simp
    simp only [Bool.not_true, Bool.false_eq_true, if_false]
    rcases hconv2 : lvr.fromMeshBufferToTriangleMesh mb mesh_msg.mesh with t | ⟨b3, m⟩
    · simp
    cases b3
    · simp
    · simp
      exact ⟨mb, ⟨l, w1, hcm⟩, m, hconv2⟩

/-- C13, on the sample: all three steps return true. -/
theorem createMeshMsg_returns_witness :
    okLvr.fromPointCloud2ToPointBuffer (sampleCloud 5) okLvr.newPointBuffer =
      Except.ok (true, 5) ∧
    createMesh sampleNode okLvr 5 okLvr.newMeshBuffer (World.initial natTypes) =
      { outcome := Outcome.returned (true, 4),
        events :=
          [Event.newAdaptiveKSearchSurface 5 "STANN" 10 10 5 false, Event.setKd 5,
           Event.setKi 10, Event.setKn 10, Event.calculateSurfaceNormals 5,
           Event.newPointsetGrid 10 5 5 true true, Event.calcDistanceValues 4,
           Event.newFastReconstruction 4, Event.getMesh 4 0, Event.calcFaceNormals 4,
           Event.planarClusterGrowing 4 4 85, Event.calcVertexNormals 4 4 5,
           Event.finalizeApply 4 4, Event.rosInfo "Reconstruction finished!"],
        world := { m_surface := some 5 } } ∧
    okLvr.fromMeshBufferToTriangleMesh 4 (newTriangleMeshStamped okLvr).mesh =
      Except.ok (true, 4) ∧
    createMeshMsg sampleNode okLvr (sampleCloud 5) (newTriangleMeshStamped okLvr)
        (World.initial natTypes) =
      { outcome := Outcome.returned (true,
          { header := { frame_id := (sampleCloud 5).header.frame_id,
                        stamp := (sampleCloud 5).header.stamp },
            mesh := 4 }),
        events := Event.fromPointCloud2ToPointBuffer (sampleCloud 5) ::
          [Event.newAdaptiveKSearchSurface 5 "STANN" 10 10 5 false, Event.setKd 5,
           Event.setKi 10, Event.setKn 10, Event.calculateSurfaceNormals 5,
           Event.newPointsetGrid 10 5 5 true true, Event.calcDistanceValues 4,
           Event.newFastReconstruction 4, Event.getMesh 4 0, Event.calcFaceNormals 4,
           Event.planarClusterGrowing 4 4 85, Event.calcVertexNormals 4 4 5,
           Event.finalizeApply 4 4, Event.rosInfo "Reconstruction finished!"] ++
          [Event.fromMeshBufferToTriangleMesh 4 (newTriangleMeshStamped okLvr).mesh],
        world := { m_surface := some 5 } } :=
  ⟨rfl, createMesh_sample, rfl,
    (createMeshMsg_returns sampleNode okLvr (sampleCloud 5) (newTriangleMeshStamped okLvr)
      (World.initial natTypes)).2.2.2.1 5 4 _ _ 4 rfl createMesh_sample rfl⟩

end Reconstruction

end lvr_ros
